import Mathlib

/-!
Verification development for the dns-provider-api repository: shallow
embeddings of the inwx, netcup, hostingde and checkdomain DNS-01 challenge
adapters (Present / CleanUp), together with theorems settling the spec's
testable properties against them.

Each adapter is embedded as a pure function threading an explicit state
(the provider-side zone record set, the adapter's record-ID map, and a
chronological trace of the provider API calls made) and reading an
environment record that supplies the external collaborators: the zone
resolver result and injected transport or provider failures.
-/

namespace DnsProviderApi

/-! ## String helpers (dns01 / strings library functions used by the adapters) -/

/-- Models `dns01.UnFqdn`, i.e. `strings.TrimSuffix(name, ".")`: remove one
trailing dot when present. -/
def unFqdn (s : String) : String :=
  match s.data.reverse with
  | '.' :: rest => String.mk rest.reverse
  | _ => s

/-- Helper for `replaceFirst`: replace the first occurrence of `pat` in the
character list by `rep`. -/
def replaceFirstAux (pat rep : List Char) : List Char → List Char
  | [] => []
  | c :: rest =>
    if pat.isPrefixOf (c :: rest) then rep ++ List.drop pat.length (c :: rest)
    else c :: replaceFirstAux pat rep rest

/-- Models `strings.Replace(s, old, new, 1)`: replace the first occurrence of
`pat` by `rep` (with Go's convention that an empty `old` inserts `rep` in
front). -/
def replaceFirst (s pat rep : String) : String :=
  if pat.data = [] then String.mk (rep.data ++ s.data)
  else String.mk (replaceFirstAux pat.data rep.data s.data)

/-- Models `fmt.Sprintf("\"%s\"", value)`, the exact-quoted TXT content form. -/
def quoteS (v : String) : String := "\"" ++ v ++ "\""

/-! ## Errors, events, record-ID maps -/

/-- Errors crossing the adapter boundary.  `errorResponse` models a
`goinwx.ErrorResponse` business error (carrying the provider message);
`other` models every other Go error, carrying its rendered message. -/
inductive Err where
  | errorResponse (msg : String)
  | other (msg : String)
deriving DecidableEq

/-- Rendered message of an error, as `%v` / `%w` would produce it. -/
def errMsg : Err → String
  | Err.errorResponse m => m
  | Err.other m => m

/-- Models `fmt.Errorf(p + "%w", err)`: wrap an error with an adapter
identity, keeping the underlying message. -/
def wrapErr (p : String) (e : Err) : Err := Err.other (p ++ errMsg e)

/-- Provider API calls, recorded chronologically in each adapter state so
that theorems can speak about which calls a Present/CleanUp run performed. -/
inductive Ev where
  | login
  | logout
  | createRecord
  | nsInfo
  | deleteRec (id : Nat)
  | getRecords
  | updateRecords
  | getZone
  | updateZone
  | domainSearch
  | checkNs
  | cdCreate
  | cdDelete
deriving DecidableEq

/-- Number of logout calls in a trace. -/
def logoutCount (evs : List Ev) : Nat := evs.countP (fun e => e == Ev.logout)

/-- Go map read `m[k]` for a `map[string]string`: value when present,
empty string otherwise. -/
def mapLookup (m : List (String × String)) (k : String) : String :=
  match m.find? (fun p => p.1 == k) with
  | some p => p.2
  | none => ""

/-- Go map write `m[k] = v` for a `map[string]string`. -/
def mapInsert (m : List (String × String)) (k v : String) : List (String × String) :=
  (k, v) :: m.filter (fun p => !(p.1 == k))

/-- Go `delete(m, k)` for a `map[string]string`. -/
def mapDelete (m : List (String × String)) (k : String) : List (String × String) :=
  m.filter (fun p => !(p.1 == k))

/-! ## inwx adapter (src/provider/inwx/inwx.go, direct-CRUD strategy) -/

/-- Provider-side view of one inwx nameserver record (goinwx record). -/
structure InwxRecord where
  id : Nat
  domain : String
  name : String
  typ : String
  content : String
  ttl : Nat
deriving DecidableEq

/-- State threaded through inwx operations: the provider's record set, the
next provider-assigned id, and the API-call trace. -/
structure InwxState where
  records : List InwxRecord
  nextId : Nat
  events : List Ev
deriving DecidableEq

/-- Environment for the inwx adapter: the zone resolver
(`dns01.FindZoneByFqdn`), the configured TTL, and injected failures for each
provider call (`none` means the call behaves nominally).  `deleteErr` injects
a failure per record id. -/
structure InwxEnv where
  findZone : String → Except Err String
  ttl : Nat
  loginErr : Option Err
  logoutErr : Option Err
  createErr : Option Err
  infoErr : Option Err
  deleteErr : Nat → Option Err

/-- Models `d.client.Account.Login()`. -/
def inwxLogin (env : InwxEnv) (st : InwxState) : Except Err Unit × InwxState :=
  let st' := { st with events := st.events ++ [Ev.login] }
  match env.loginErr with
  | some e => (Except.error e, st')
  | none => (Except.ok (), st')

/-- Models `d.client.Account.Logout()`; both call sites only log its error,
so the state change (the traced call) is independent of the result. -/
def inwxLogout (env : InwxEnv) (st : InwxState) : Except Err Unit × InwxState :=
  ((match env.logoutErr with
    | some e => Except.error e
    | none => Except.ok ()),
   { st with events := st.events ++ [Ev.logout] })

/-- Modelled from the spec: the provider side of
`d.client.Nameservers.CreateRecord` (direct-CRUD create, spec section 4.4).
A provider-reported "Object exists" condition is returned when a record with
the same (domain, name, type, content) is already stored; otherwise the
record is stored under a fresh provider id.  `env.createErr` injects
transport or other provider failures. -/
def inwxCreateRecord (env : InwxEnv) (st : InwxState) (r : InwxRecord) :
    Except Err Nat × InwxState :=
  let st' := { st with events := st.events ++ [Ev.createRecord] }
  match env.createErr with
  | some e => (Except.error e, st')
  | none =>
    if st'.records.any (fun x =>
        x.domain == r.domain && x.name == r.name && x.typ == r.typ
          && x.content == r.content) then
      (Except.error (Err.errorResponse "Object exists"), st')
    else
      (Except.ok st'.nextId,
        { st' with records := st'.records ++ [{ r with id := st'.nextId }],
                   nextId := st'.nextId + 1 })

/-- Modelled from the spec: the provider side of `d.client.Nameservers.Info`
filtered by (domain, name, type) — the record-listing call CleanUp uses. -/
def inwxNsInfo (env : InwxEnv) (st : InwxState) (domain name typ : String) :
    Except Err (List InwxRecord) × InwxState :=
  let st' := { st with events := st.events ++ [Ev.nsInfo] }
  match env.infoErr with
  | some e => (Except.error e, st')
  | none =>
    (Except.ok (st'.records.filter (fun x =>
        x.domain == domain && x.name == name && x.typ == typ)), st')

/-- One iteration of the inwx CleanUp deletion loop:
`err = d.client.Nameservers.DeleteRecord(record.ID); if err != nil { lastErr = fmt.Errorf("inwx: %w", err) }`. -/
def inwxDelStep (env : InwxEnv) (acc : InwxState × Option Err) (r : InwxRecord) :
    InwxState × Option Err :=
  let st' := { acc.1 with events := acc.1.events ++ [Ev.deleteRec r.id] }
  match env.deleteErr r.id with
  | some e => (st', some (wrapErr "inwx: " e))
  | none => ({ st' with records := st'.records.filter (fun x => !(x.id == r.id)) }, acc.2)

/-- The inwx CleanUp deletion loop over the records returned by Info. -/
def inwxDelLoop (env : InwxEnv) (recs : List InwxRecord) (st : InwxState) :
    InwxState × Option Err :=
  recs.foldl (inwxDelStep env) (st, none)

/-- Shallow embedding of `inwx.DNSProvider.Present`
(src/provider/inwx/inwx.go lines 90-130): resolve zone, login, create the
TXT record, treat a provider "Object exists" response as success, and run
the deferred logout on every path past login. -/
def inwxPresent (env : InwxEnv) (st : InwxState) (domain fqdn value : String) :
    Option Err × InwxState :=
  match env.findZone fqdn with
  | Except.error e => (some (wrapErr "inwx: " e), st)
  | Except.ok authZone =>
    match inwxLogin env st with
    | (Except.error e, st1) => (some (wrapErr "inwx: " e), st1)
    | (Except.ok _, st1) =>
      let request : InwxRecord :=
        { id := 0, domain := unFqdn authZone, name := unFqdn fqdn,
          typ := "TXT", content := value, ttl := env.ttl }
      let res := inwxCreateRecord env st1 request
      let ret : Option Err :=
        match res.1 with
        | Except.ok _ => none
        | Except.error (Err.errorResponse m) =>
          if m == "Object exists" then none
          else some (wrapErr "inwx: " (Err.errorResponse m))
        | Except.error e => some (wrapErr "inwx: " e)
      (ret, (inwxLogout env res.2).2)

/-- Shallow embedding of `inwx.DNSProvider.CleanUp`
(src/provider/inwx/inwx.go lines 133-169): resolve zone, login, list the
TXT records at the name via Info, delete every listed record keeping only
the last wrapped failure, and run the deferred logout. -/
def inwxCleanUp (env : InwxEnv) (st : InwxState) (domain fqdn value : String) :
    Option Err × InwxState :=
  match env.findZone fqdn with
  | Except.error e => (some (wrapErr "inwx: " e), st)
  | Except.ok authZone =>
    match inwxLogin env st with
    | (Except.error e, st1) => (some (wrapErr "inwx: " e), st1)
    | (Except.ok _, st1) =>
      match inwxNsInfo env st1 (unFqdn authZone) (unFqdn fqdn) "TXT" with
      | (Except.error e, st2) => (some (wrapErr "inwx: " e), (inwxLogout env st2).2)
      | (Except.ok recs, st2) =>
        let out := inwxDelLoop env recs st2
        (out.2, (inwxLogout env out.1).2)

/-! ## netcup adapter (src/unnamed/part_000, fetch-modify-submit strategy) -/

/-- `internal.DNSRecord` of the netcup client. -/
structure NetcupDNSRecord where
  id : Nat
  hostname : String
  recordType : String
  destination : String
  deleteRecord : Bool
  ttl : Nat
deriving DecidableEq

/-- State threaded through netcup operations: the provider's record set for
the managed zone, the next provider-assigned id, and the API-call trace. -/
structure NetcupState where
  records : List NetcupDNSRecord
  nextId : Nat
  events : List Ev
deriving DecidableEq

/-- Environment for the netcup adapter: zone resolver, configured TTL and
injected failures for each session / zone call. -/
structure NetcupEnv where
  findZone : String → Except Err String
  ttl : Nat
  loginErr : Option Err
  logoutErr : Option Err
  getErr : Option Err
  updateErr : Option Err

/-- Models `d.client.Login()`. -/
def netcupLogin (env : NetcupEnv) (st : NetcupState) : Except Err Unit × NetcupState :=
  let st' := { st with events := st.events ++ [Ev.login] }
  match env.loginErr with
  | some e => (Except.error e, st')
  | none => (Except.ok (), st')

/-- Models `d.client.Logout(sessionID)`; both call sites only log its error,
so the state change (the traced call) is independent of the result. -/
def netcupLogout (env : NetcupEnv) (st : NetcupState) : Except Err Unit × NetcupState :=
  ((match env.logoutErr with
    | some e => Except.error e
    | none => Except.ok ()),
   { st with events := st.events ++ [Ev.logout] })

/-- Models `d.client.GetDNSRecords(zone, sessionID)`: the provider returns
the zone's current record list (the environment manages a single zone). -/
def netcupGetDNSRecords (env : NetcupEnv) (st : NetcupState) (zone : String) :
    Except Err (List NetcupDNSRecord) × NetcupState :=
  let st' := { st with events := st.events ++ [Ev.getRecords] }
  match env.getErr with
  | some e => (Except.error e, st')
  | none => (Except.ok st'.records, st')

/-- Modelled from the spec: provider-side application of one submitted record
inside a whole-zone mutation (spec sections 2, 3, 4.5).  A record flagged
`deleteRecord` removes the stored record carrying its id; a record submitted
with an id replaces that stored record; a record submitted without an id is
one the provider has not assigned an id to yet (spec section 3), so the
provider assigns a fresh id and adds it. -/
def netcupApplyOne (acc : List NetcupDNSRecord × Nat) (r : NetcupDNSRecord) :
    List NetcupDNSRecord × Nat :=
  if r.deleteRecord then
    (acc.1.filter (fun x => !(x.id == r.id)), acc.2)
  else if r.id == 0 then
    (acc.1 ++ [{ r with id := acc.2 }], acc.2 + 1)
  else
    (acc.1.map (fun x => if x.id == r.id then r else x), acc.2)

/-- Models `d.client.UpdateDNSRecord(sessionID, zone, records)`: submit a
whole-zone mutation; the provider applies the submitted records in order. -/
def netcupUpdateDNSRecord (env : NetcupEnv) (st : NetcupState) (zone : String)
    (recs : List NetcupDNSRecord) : Except Err Unit × NetcupState :=
  let st' := { st with events := st.events ++ [Ev.updateRecords] }
  match env.updateErr with
  | some e => (Except.error e, st')
  | none =>
    let out := recs.foldl netcupApplyOne (st'.records, st'.nextId)
    (Except.ok (), { st' with records := out.1, nextId := out.2 })

/-- First index of a list element satisfying `p`. -/
def firstIdx {α : Type} (p : α → Bool) : List α → Option Nat
  | [] => none
  | x :: rest =>
    if p x then some 0 else (firstIdx p rest).map (fun i => i + 1)

/-- Modelled from the spec: `internal.GetDNSRecordIdx` (declared in the
netcup internal package, not under src/) — the index of the first stored
record whose (hostname, type, destination) triple equals the probe record's,
matching for cleanup by (name, value) equality (spec sections 3 and 4.4);
an error when no record matches. -/
def netcupGetDNSRecordIdx (records : List NetcupDNSRecord) (record : NetcupDNSRecord) :
    Except Err Nat :=
  match firstIdx (fun x =>
      x.hostname == record.hostname && x.recordType == record.recordType
        && x.destination == record.destination) records with
  | some i => Except.ok i
  | none => Except.error (Err.other "no DNS Record found")

/-- Placeholder record used as the (never reached) default of `List.getD`. -/
def netcupDefaultRecord : NetcupDNSRecord :=
  { id := 0, hostname := "", recordType := "", destination := "",
    deleteRecord := false, ttl := 0 }

/-- Shallow embedding of `netcup.DNSProvider.Present`
(src/unnamed/part_000 lines 95-137): resolve zone, login, fetch the zone's
records ignoring a fetch failure (`// skip no existing records`), append the
new TXT record and submit the whole list, running the deferred logout on
every path past login. -/
def netcupPresent (env : NetcupEnv) (st : NetcupState) (domainName fqdn value : String) :
    Option Err × NetcupState :=
  match env.findZone fqdn with
  | Except.error e => (some (wrapErr "netcup: failed to find DNSZone, " e), st)
  | Except.ok zone0 =>
    match netcupLogin env st with
    | (Except.error e, st1) => (some (wrapErr "netcup: " e), st1)
    | (Except.ok _, st1) =>
      let hostname := replaceFirst fqdn ("." ++ zone0) ""
      let record : NetcupDNSRecord :=
        { id := 0, hostname := hostname, recordType := "TXT",
          destination := value, deleteRecord := false, ttl := env.ttl }
      let zone := unFqdn zone0
      let res := netcupGetDNSRecords env st1 zone
      let records : List NetcupDNSRecord :=
        match res.1 with
        | Except.ok rs => rs
        | Except.error _ => []
      let records2 := records ++ [record]
      let res2 := netcupUpdateDNSRecord env res.2 zone records2
      let ret : Option Err :=
        match res2.1 with
        | Except.ok _ => none
        | Except.error e => some (wrapErr "netcup: failed to add TXT-Record: " e)
      (ret, (netcupLogout env res2.2).2)

/-- Shallow embedding of `netcup.DNSProvider.CleanUp`
(src/unnamed/part_000 lines 140-186): resolve zone, login, fetch the zone's
records, locate the matching (hostname, type, destination) record, flag it
`DeleteRecord` and submit only that record, running the deferred logout on
every path past login. -/
def netcupCleanUp (env : NetcupEnv) (st : NetcupState) (domainName fqdn value : String) :
    Option Err × NetcupState :=
  match env.findZone fqdn with
  | Except.error e => (some (wrapErr "netcup: failed to find DNSZone, " e), st)
  | Except.ok zone0 =>
    match netcupLogin env st with
    | (Except.error e, st1) => (some (wrapErr "netcup: " e), st1)
    | (Except.ok _, st1) =>
      let hostname := replaceFirst fqdn ("." ++ zone0) ""
      let zone := unFqdn zone0
      match netcupGetDNSRecords env st1 zone with
      | (Except.error e, st2) => (some (wrapErr "netcup: " e), (netcupLogout env st2).2)
      | (Except.ok records, st2) =>
        let record : NetcupDNSRecord :=
          { id := 0, hostname := hostname, recordType := "TXT",
            destination := value, deleteRecord := false, ttl := 0 }
        match netcupGetDNSRecordIdx records record with
        | Except.error e => (some (wrapErr "netcup: " e), (netcupLogout env st2).2)
        | Except.ok idx =>
          let target := { records.getD idx netcupDefaultRecord with deleteRecord := true }
          let res2 := netcupUpdateDNSRecord env st2 zone [target]
          let ret : Option Err :=
            match res2.1 with
            | Except.ok _ => none
            | Except.error e => some (wrapErr "netcup: " e)
          (ret, (netcupLogout env res2.2).2)

/-! ## hostingde adapter (src/provider/inwx/inwx.go lines 176-367, zone-diff
strategy with a record-ID cache) -/

/-- hostingde `DNSRecord`, also the provider-side stored form (stored TXT
content is the exact-quoted form, spec section 4.5). -/
structure HdeDNSRecord where
  id : String
  name : String
  typ : String
  content : String
  ttl : Nat
deriving DecidableEq

/-- State threaded through hostingde operations: provider-side zone records,
a counter for provider-assigned ids, the adapter's `recordIDs` map
(fqdn to record id) and the API-call trace. -/
structure HdeState where
  records : List HdeDNSRecord
  nextId : Nat
  recordIDs : List (String × String)
  events : List Ev
deriving DecidableEq

/-- Environment for the hostingde adapter: the configured zone name, TTL,
injected failures for the two zone calls, and the provider's response record
list as a function of the resulting zone (nominally the identity; overriding
it models a response that fails to confirm the mutation). -/
structure HdeEnv where
  zoneName : String
  ttl : Nat
  getZoneErr : Option Err
  updateZoneErr : Option Err
  respRecords : List HdeDNSRecord → List HdeDNSRecord

/-- Models `d.getZone(zonesFind)`: fetch the zone configuration. -/
def hdeGetZone (env : HdeEnv) (st : HdeState) : Except Err Unit × HdeState :=
  let st' := { st with events := st.events ++ [Ev.getZone] }
  match env.getZoneErr with
  | some e => (Except.error e, st')
  | none => (Except.ok (), st')

/-- Modelled from the spec: provider-side application of one added record in
a hostingde zone update: the provider assigns a fresh id and stores the TXT
content in exact-quoted form (spec section 4.5). -/
def hdeAddOne (acc : List HdeDNSRecord × Nat) (r : HdeDNSRecord) :
    List HdeDNSRecord × Nat :=
  (acc.1 ++ [{ r with id := "r" ++ Nat.repr acc.2, content := quoteS r.content }],
   acc.2 + 1)

/-- Whether a stored record matches some record of the submitted delete set
(name, type and exact-quoted content equality, spec section 4.5). -/
def hdeMatchesDelete (dels : List HdeDNSRecord) (x : HdeDNSRecord) : Bool :=
  dels.any (fun dl => dl.name == x.name && dl.typ == x.typ && dl.content == x.content)

/-- Models `d.updateZone(req)`: submit a zone mutation with an add set and a
delete set; on success the provider's response carries the record list
`env.respRecords` derives from the resulting zone. -/
def hdeUpdateZone (env : HdeEnv) (st : HdeState)
    (adds dels : List HdeDNSRecord) : Except Err (List HdeDNSRecord) × HdeState :=
  let st' := { st with events := st.events ++ [Ev.updateZone] }
  match env.updateZoneErr with
  | some e => (Except.error e, st')
  | none =>
    let out := adds.foldl hdeAddOne (st'.records, st'.nextId)
    let recs2 := out.1.filter (fun x => !(hdeMatchesDelete dels x))
    (Except.ok (env.respRecords recs2),
     { st' with records := recs2, nextId := out.2 })

/-- One iteration of the hostingde Present confirmation loop over the
response records: on a (name, exact-quoted content) match, store the
record's id in the `recordIDs` map under `fqdn`. -/
def hdeScanStep (fqdn value : String) (m : List (String × String)) (r : HdeDNSRecord) :
    List (String × String) :=
  if r.name == unFqdn fqdn && r.content == quoteS value then mapInsert m fqdn r.id
  else m

/-- Shallow embedding of `hostingde.DNSProvider.Present`
(src/provider/inwx/inwx.go lines 275-324): fetch the zone config, submit a
zone update adding the TXT record, scan the response for the matching
(name, exact-quoted content) record storing its id under `fqdn`, and fail
when the map entry for `fqdn` is still empty. -/
def hdePresent (env : HdeEnv) (st : HdeState) (domain fqdn value : String) :
    Option Err × HdeState :=
  match hdeGetZone env st with
  | (Except.error e, st1) => (some (wrapErr "hostingde: " e), st1)
  | (Except.ok _, st1) =>
    let rec0 : HdeDNSRecord :=
      { id := "", name := unFqdn fqdn, typ := "TXT", content := value, ttl := env.ttl }
    match hdeUpdateZone env st1 [rec0] [] with
    | (Except.error e, st2) => (some (wrapErr "hostingde: " e), st2)
    | (Except.ok respRecs, st2) =>
      let m := respRecs.foldl (hdeScanStep fqdn value) st2.recordIDs
      let st3 := { st2 with recordIDs := m }
      if mapLookup m fqdn == "" then
        (some (Err.other
          ("hostingde: error getting ID of just created record, for domain " ++ domain)),
         st3)
      else (none, st3)

/-- Shallow embedding of `hostingde.DNSProvider.CleanUp`
(src/provider/inwx/inwx.go lines 327-367): fetch the zone config, delete the
`fqdn` entry from the `recordIDs` map, then submit a zone update whose delete
set is the (name, TXT, exact-quoted content) record. -/
def hdeCleanUp (env : HdeEnv) (st : HdeState) (domain fqdn value : String) :
    Option Err × HdeState :=
  let rec0 : HdeDNSRecord :=
    { id := "", name := unFqdn fqdn, typ := "TXT", content := quoteS value, ttl := 0 }
  match hdeGetZone env st with
  | (Except.error e, st1) => (some (wrapErr "hostingde: " e), st1)
  | (Except.ok _, st1) =>
    let st2 := { st1 with recordIDs := mapDelete st1.recordIDs fqdn }
    match hdeUpdateZone env st2 [] [rec0] with
    | (Except.error e, st3) => (some (wrapErr "hostingde: " e), st3)
    | (Except.ok _, st3) => (none, st3)

/-! ## checkdomain adapter (src/provider/checkdomain/checkdomain.go) -/

/-- State threaded through checkdomain operations: the shared
`domainIDMapping` and the API-call trace. -/
structure CdState where
  domainIDMapping : List (String × Nat)
  events : List Ev
deriving DecidableEq

/-- Environment for the checkdomain adapter: the provider's domain search
result and injected failures for the nameserver check and the record
create / delete calls. -/
structure CdEnv where
  domainLookup : String → Except Err Nat
  nsErr : Option Err
  createErr : Option Err
  deleteErr : Option Err

/-- Modelled from the spec: `checkdomain.getDomainIDByName` (declared in the
checkdomain package but not under src/) — the domain-ID lookup Present and
CleanUp both call with the `domain` argument.  Per the cache contract of
spec section 4.3 it first consults the shared mapping under its argument
key, and on a miss performs the provider domain search and stores the result
under that same key. -/
def cdGetDomainIDByName (env : CdEnv) (st : CdState) (name : String) :
    Except Err Nat × CdState :=
  match st.domainIDMapping.find? (fun p => p.1 == name) with
  | some p => (Except.ok p.2, st)
  | none =>
    let st' := { st with events := st.events ++ [Ev.domainSearch] }
    match env.domainLookup name with
    | Except.error e => (Except.error e, st')
    | Except.ok id =>
      (Except.ok id, { st' with domainIDMapping := (name, id) :: st'.domainIDMapping })

/-- Models `d.checkNameservers(domainID)`. -/
def cdCheckNameservers (env : CdEnv) (st : CdState) (domainID : Nat) :
    Except Err Unit × CdState :=
  let st' := { st with events := st.events ++ [Ev.checkNs] }
  match env.nsErr with
  | some e => (Except.error e, st')
  | none => (Except.ok (), st')

/-- Models `d.createRecord(domainID, record)` (record contents do not affect
the claims settled here; only success or failure is observed). -/
def cdCreateRecord (env : CdEnv) (st : CdState) (domainID : Nat) (fqdn value : String) :
    Except Err Unit × CdState :=
  let st' := { st with events := st.events ++ [Ev.cdCreate] }
  match env.createErr with
  | some e => (Except.error e, st')
  | none => (Except.ok (), st')

/-- Models `d.deleteTXTRecord(domainID, fqdn, value)`. -/
def cdDeleteTXTRecord (env : CdEnv) (st : CdState) (domainID : Nat) (fqdn value : String) :
    Except Err Unit × CdState :=
  let st' := { st with events := st.events ++ [Ev.cdDelete] }
  match env.deleteErr with
  | some e => (Except.error e, st')
  | none => (Except.ok (), st')

/-- Go `delete(m, k)` for the `map[string]int` domain-ID mapping. -/
def mapDeleteN (m : List (String × Nat)) (k : String) : List (String × Nat) :=
  m.filter (fun p => !(p.1 == k))

/-- Shallow embedding of `checkdomain.DNSProvider.Present`
(src/provider/checkdomain/checkdomain.go lines 101-124). -/
def cdPresent (env : CdEnv) (st : CdState) (domain fqdn value : String) :
    Option Err × CdState :=
  match cdGetDomainIDByName env st domain with
  | (Except.error e, st1) => (some (wrapErr "checkdomain: " e), st1)
  | (Except.ok domainID, st1) =>
    match cdCheckNameservers env st1 domainID with
    | (Except.error e, st2) => (some (wrapErr "checkdomain: " e), st2)
    | (Except.ok _, st2) =>
      match cdCreateRecord env st2 domainID fqdn value with
      | (Except.error e, st3) => (some (wrapErr "checkdomain: " e), st3)
      | (Except.ok _, st3) => (none, st3)

/-- Shallow embedding of `checkdomain.DNSProvider.CleanUp`
(src/provider/checkdomain/checkdomain.go lines 127-148): after a successful
delete call, the adapter removes the key `fqdn` from `domainIDMapping`. -/
def cdCleanUp (env : CdEnv) (st : CdState) (domain fqdn value : String) :
    Option Err × CdState :=
  match cdGetDomainIDByName env st domain with
  | (Except.error e, st1) => (some (wrapErr "checkdomain: " e), st1)
  | (Except.ok domainID, st1) =>
    match cdCheckNameservers env st1 domainID with
    | (Except.error e, st2) => (some (wrapErr "checkdomain: " e), st2)
    | (Except.ok _, st2) =>
      match cdDeleteTXTRecord env st2 domainID fqdn value with
      | (Except.error e, st3) => (some (wrapErr "checkdomain: " e), st3)
      | (Except.ok _, st3) =>
        (none, { st3 with domainIDMapping := mapDeleteN st3.domainIDMapping fqdn })

/-! ## Nominal environments and small concrete states used by witnesses -/

/-- Fully nominal inwx environment: zone resolution succeeds, no injected
failures. -/
def inwxNominalEnv : InwxEnv :=
  { findZone := fun _ => Except.ok "example.com.", ttl := 300,
    loginErr := none, logoutErr := none, createErr := none, infoErr := none,
    deleteErr := fun _ => none }

/-- Fully nominal netcup environment. -/
def netcupNominalEnv : NetcupEnv :=
  { findZone := fun _ => Except.ok "example.com.", ttl := 300,
    loginErr := none, logoutErr := none, getErr := none, updateErr := none }

/-- Fully nominal hostingde environment (the response reports the resulting
zone record list unchanged). -/
def hdeNominalEnv : HdeEnv :=
  { zoneName := "example.com", ttl := 300, getZoneErr := none,
    updateZoneErr := none, respRecords := fun rs => rs }

/-- Fully nominal checkdomain environment. -/
def cdNominalEnv : CdEnv :=
  { domainLookup := fun _ => Except.ok 7, nsErr := none, createErr := none,
    deleteErr := none }

/-- Empty inwx provider state. -/
def inwxEmptyState : InwxState := { records := [], nextId := 1, events := [] }

/-- Empty netcup provider state. -/
def netcupEmptyState : NetcupState := { records := [], nextId := 1, events := [] }

/-- Empty hostingde provider state. -/
def hdeEmptyState : HdeState :=
  { records := [], nextId := 1, recordIDs := [], events := [] }

/-- Empty checkdomain adapter state. -/
def cdEmptyState : CdState := { domainIDMapping := [], events := [] }

/-- inwx state holding two TXT records at the challenge name with different
values. -/
def inwxTwoRecordState : InwxState :=
  { records :=
      [ { id := 1, domain := "example.com", name := "_acme-challenge.example.com",
          typ := "TXT", content := "v1", ttl := 300 },
        { id := 2, domain := "example.com", name := "_acme-challenge.example.com",
          typ := "TXT", content := "v2", ttl := 300 } ],
    nextId := 3, events := [] }

/-- netcup state for the C8 witness: an unrelated record followed by the
challenge record. -/
def netcupTwoRecordState : NetcupState :=
  { records :=
      [ { id := 5, hostname := "www", recordType := "A",
          destination := "192.0.2.1", deleteRecord := false, ttl := 300 },
        { id := 6, hostname := "_acme-challenge", recordType := "TXT",
          destination := "value", deleteRecord := false, ttl := 300 } ],
    nextId := 7, events := [] }

/-- inwx environment in which every record deletion fails, with a
distinguishable message per record id. -/
def inwxDeleteFailEnv : InwxEnv :=
  { inwxNominalEnv with
    deleteErr := fun i =>
      if i == 1 then some (Err.other "e1") else some (Err.other "e2") }

/-! ## General helper lemmas -/

/-- The hostingde confirmation scan leaves the record-ID map unchanged when
no scanned record matches the requested (name, exact-quoted content). -/
lemma hdeScan_no_match (fqdn value : String) (l : List HdeDNSRecord) :
    ∀ m : List (String × String),
      (∀ r ∈ l, (r.name == unFqdn fqdn && r.content == quoteS value) = false) →
      l.foldl (hdeScanStep fqdn value) m = m := by
  induction l with
  | nil => intro m _; rfl
  | cons a rest ih =>
    intro m h
    have ha := h a (by simp)
    rw [List.foldl_cons]
    have hstep : hdeScanStep fqdn value m a = m := by
      simp [hdeScanStep, ha]
    rw [hstep]
    exact ih m (fun r hr => h r (by simp [hr]))

/-- Reading back the key just inserted into a record-ID map returns the
inserted value. -/
lemma mapLookup_insert (m : List (String × String)) (k v : String) :
    mapLookup (mapInsert m k v) k = v := by
  simp [mapLookup, mapInsert, List.find?]

/-- A provider-assigned hostingde record id is never the empty string. -/
lemma hdeId_ne_empty (n : Nat) : ("r" ++ Nat.repr n) ≠ "" := by
  intro h
  have hd := congrArg String.data h
  rw [String.data_append] at hd
  simp [String.data] at hd

/-- A `find?` by key is unaffected by filtering with a predicate that keeps
every element the query could return. -/
lemma find?_filter_imp {α : Type} (q keep : α → Bool) (m : List α)
    (h : ∀ x, q x = true → keep x = true) :
    (m.filter keep).find? q = m.find? q := by
  induction m with
  | nil => rfl
  | cons a rest ih =>
    by_cases hq : q a = true
    · rw [List.filter_cons, h a hq]
      simp [List.find?, hq, ih]
    · have hq' : q a = false := by
        cases hqa : q a
        · rfl
        · exact absurd hqa hq
      rw [List.filter_cons]
      cases hk : keep a
      · simp only [Bool.false_eq_true, if_false]
        rw [ih, List.find?_cons, hq']
      · simp only [if_true]
        simp [List.find?_cons, hq', ih]

/-- Last element of a cons in terms of the tail's last element. -/
lemma getLast?_cons_eq {α : Type} (a : α) (l : List α) :
    (a :: l).getLast? = some (l.getLast?.getD a) := by
  induction l generalizing a with
  | nil => rfl
  | cons b m ih =>
    rw [List.getLast?_cons_cons, ih b]
    cases m.getLast? <;> simp [ih]

/-- The inwx deletion loop attempts a delete for every listed record, in
order. -/
lemma inwxDelLoop_trace (env : InwxEnv) :
    ∀ (recs : List InwxRecord) (st : InwxState) (le : Option Err),
      (recs.foldl (inwxDelStep env) (st, le)).1.events
        = st.events ++ recs.map (fun r => Ev.deleteRec r.id) := by
  intro recs
  induction recs with
  | nil => intro st le; simp
  | cons a rest ih =>
    intro st le
    rw [List.foldl_cons]
    cases hda : env.deleteErr a.id with
    | some e =>
      simp only [inwxDelStep, hda]
      rw [ih]
      simp
    | none =>
      simp only [inwxDelStep, hda]
      rw [ih]
      simp

/-- The inwx deletion loop's reported error is the wrap of the LAST
per-record deletion failure (or the incoming value when none fails). -/
lemma inwxDelLoop_lastErr (env : InwxEnv) :
    ∀ (recs : List InwxRecord) (st : InwxState) (le : Option Err),
      (recs.foldl (inwxDelStep env) (st, le)).2
        = (match (recs.filterMap (fun r => env.deleteErr r.id)).getLast? with
           | some e => some (wrapErr "inwx: " e)
           | none => le) := by
  intro recs
  induction recs with
  | nil => intro st le; simp
  | cons a rest ih =>
    intro st le
    rw [List.foldl_cons]
    cases hda : env.deleteErr a.id with
    | none =>
      simp only [inwxDelStep, hda]
      rw [ih, List.filterMap_cons, hda]
    | some e =>
      simp only [inwxDelStep, hda]
      rw [ih, List.filterMap_cons, hda, getLast?_cons_eq]
      cases hrl : (rest.filterMap (fun r => env.deleteErr r.id)).getLast? with
      | none => simp [hrl]
      | some e2 => simp [hrl]

/-- A delete-call trace contains no logout events. -/
lemma countP_logout_deleteRec_map (l : List InwxRecord) :
    (l.map (fun r => Ev.deleteRec r.id)).countP (fun e => e == Ev.logout) = 0 := by
  rw [List.countP_eq_zero]
  intro e he
  obtain ⟨r, -, rfl⟩ := List.mem_map.mp he
  simp

/-- When at least one deletion failed, the inwx deletion loop's reported
error is not nil. -/
lemma matchLast_ne_none (L : List Err) (h : L ≠ []) :
    (match L.getLast? with
     | some e => some (wrapErr "inwx: " e)
     | none => (none : Option Err)) ≠ none := by
  cases L with
  | nil => exact absurd rfl h
  | cons a t =>
    rw [getLast?_cons_eq]
    simp

/-! ## Claim C4 -/

/-- C4: for the inwx adapter, if the provider's create-record call during
Present fails with a provider-reported "record already exists" condition (a
`goinwx.ErrorResponse` whose message is "Object exists"), Present returns
success (nil error), not an error. -/
theorem c4_inwx_already_exists_is_success (env : InwxEnv) (st : InwxState)
    (domain fqdn value z : String)
    (hz : env.findZone fqdn = Except.ok z)
    (hlogin : env.loginErr = none)
    (hcreate : env.createErr = some (Err.errorResponse "Object exists")) :
    (inwxPresent env st domain fqdn value).1 = none := by
  simp [inwxPresent, inwxLogin, inwxCreateRecord, inwxLogout, hz, hlogin, hcreate]

/-- Environment in which the provider reports "Object exists" on create. -/
def inwxExistsEnv : InwxEnv :=
  { inwxNominalEnv with createErr := some (Err.errorResponse "Object exists") }

/-- Witness for C4 at a concrete input. -/
theorem c4_witness :
    (inwxPresent inwxExistsEnv inwxEmptyState "example.com"
      "_acme-challenge.example.com." "value").1 = none :=
  c4_inwx_already_exists_is_success inwxExistsEnv inwxEmptyState "example.com"
    "_acme-challenge.example.com." "value" "example.com." rfl rfl rfl

/-! ## Claims C10 and C5 (the hostingde missing-confirmation check) -/

/-- C10: for the hostingde adapter, if the record-ID map already holds a
non-empty id for `fqdn` and the zone-update response contains no record
matching (name, exact-quoted content), Present still returns success: the
missing-confirmation check inspects the map entry for `fqdn`, which the
stale entry satisfies, rather than whether the response scan found a
match. -/
theorem c10_hde_stale_entry_masks_missing_confirmation
    (env : HdeEnv) (st : HdeState) (domain fqdn value id0 : String)
    (hgz : env.getZoneErr = none) (huz : env.updateZoneErr = none)
    (hresp : ∀ rs : List HdeDNSRecord, ∀ r ∈ env.respRecords rs,
      (r.name == unFqdn fqdn && r.content == quoteS value) = false)
    (hmap : mapLookup st.recordIDs fqdn = id0) (hid : id0 ≠ "") :
    (hdePresent env st domain fqdn value).1 = none := by
  have hne : (id0 == "") = false := beq_eq_false_iff_ne.mpr hid
  simp only [hdePresent, hdeGetZone, hdeUpdateZone, hgz, huz]
  rw [hdeScan_no_match fqdn value _ _ (hresp _)]
  simp [hmap, hne]

/-- hostingde environment whose zone-update response never confirms the
mutation: the response record list is always empty. -/
def hdeNoConfirmEnv : HdeEnv :=
  { hdeNominalEnv with respRecords := fun _ => [] }

/-- hostingde state holding a stale record-ID map entry for the challenge
fqdn (left by an earlier Present). -/
def hdeStaleState : HdeState :=
  { records := [], nextId := 1,
    recordIDs := [("_acme-challenge.example.com.", "old")], events := [] }

/-- Witness for C10 at a concrete input: the zone-update response is empty,
the map holds a stale id "old", and Present returns success. -/
theorem c10_witness :
    (hdePresent hdeNoConfirmEnv hdeStaleState "example.com"
      "_acme-challenge.example.com." "value").1 = none :=
  c10_hde_stale_entry_masks_missing_confirmation hdeNoConfirmEnv hdeStaleState
    "example.com" "_acme-challenge.example.com." "value" "old" rfl rfl
    (fun _ r hr => absurd hr (List.not_mem_nil r)) rfl (by decide)

/-- C5 counterexample: a concrete run in which the zone-update submission
succeeds, the response's record list is empty (so it contains no record
matching the requested (fqdn, value)), and yet Present returns success (nil
error) because the record-ID map holds a stale non-empty entry for the
fqdn — contradicting the claim that Present returns an error in that
situation. -/
theorem c5_counterexample :
    mapLookup hdeStaleState.recordIDs "_acme-challenge.example.com." = "old"
    ∧ hdeNoConfirmEnv.updateZoneErr = none
    ∧ (hdePresent hdeNoConfirmEnv hdeStaleState "example.com"
        "_acme-challenge.example.com." "value").1 = none := by
  refine ⟨rfl, rfl, ?_⟩
  decide

/-- C5 (amended): for the hostingde adapter, if the zone-update submission
during Present succeeds but the response's record list contains no record
whose name and exact-quoted content match the requested (fqdn, value), then
Present returns the missing-confirmation error — provided the record-ID map
holds no non-empty entry for the fqdn from an earlier call (with a stale
non-empty entry Present instead returns success, see C10). -/
theorem c5_unconfirmed_record_is_error
    (env : HdeEnv) (st : HdeState) (domain fqdn value : String)
    (hgz : env.getZoneErr = none) (huz : env.updateZoneErr = none)
    (hresp : ∀ rs : List HdeDNSRecord, ∀ r ∈ env.respRecords rs,
      (r.name == unFqdn fqdn && r.content == quoteS value) = false)
    (hmap : mapLookup st.recordIDs fqdn = "") :
    (hdePresent env st domain fqdn value).1
      = some (Err.other
          ("hostingde: error getting ID of just created record, for domain " ++ domain)) := by
  simp only [hdePresent, hdeGetZone, hdeUpdateZone, hgz, huz]
  rw [hdeScan_no_match fqdn value _ _ (hresp _)]
  simp [hmap]

/-- Witness for the amended C5 at a concrete input: empty map, empty
response, Present returns the missing-confirmation error. -/
theorem c5_witness :
    (hdePresent hdeNoConfirmEnv hdeEmptyState "example.com"
      "_acme-challenge.example.com." "value").1
      = some (Err.other
          ("hostingde: error getting ID of just created record, for domain example.com")) :=
  c5_unconfirmed_record_is_error hdeNoConfirmEnv hdeEmptyState "example.com"
    "_acme-challenge.example.com." "value" rfl rfl
    (fun _ r hr => absurd hr (List.not_mem_nil r)) rfl

/-! ## Claim C6 (zone-fetch failure during Present) -/

/-- netcup environment whose records-fetch call fails. -/
def netcupGetFailEnv : NetcupEnv :=
  { netcupNominalEnv with getErr := some (Err.other "boom") }

/-- C6 counterexample: a concrete netcup Present run in which fetching the
current zone records fails, yet Present returns success (nil error) and
proceeds to submit the mutation (the trace contains the update call) —
contradicting the claim that a zone-fetch failure makes Present fail
without submitting a mutation.  The source comment at the fetch call reads
"skip no existing records". -/
theorem c6_counterexample :
    netcupGetFailEnv.getErr = some (Err.other "boom")
    ∧ (netcupPresent netcupGetFailEnv netcupEmptyState "example.com"
        "_acme-challenge.example.com." "value").1 = none
    ∧ (netcupPresent netcupGetFailEnv netcupEmptyState "example.com"
        "_acme-challenge.example.com." "value").2.events
        = [Ev.login, Ev.getRecords, Ev.updateRecords, Ev.logout] := by
  refine ⟨rfl, ?_, ?_⟩ <;> decide

/-- C6 (amended): for the hostingde adapter, if fetching the current zone
configuration fails, Present fails with the wrapped fetch error and does not
proceed to submit a mutation (no update call is made and the zone is
unchanged); for the netcup adapter, a failure fetching the existing records
is ignored and Present proceeds to submit a mutation containing only the
new TXT record. -/
theorem c6_zone_fetch_failure (envH : HdeEnv) (envN : NetcupEnv)
    (stH : HdeState) (stN : NetcupState)
    (domain fqdn value zN : String) (e eN : Err)
    (hgzH : envH.getZoneErr = some e)
    (hzN : envN.findZone fqdn = Except.ok zN)
    (hloginN : envN.loginErr = none)
    (hgetN : envN.getErr = some eN)
    (hupdN : envN.updateErr = none) :
    (hdePresent envH stH domain fqdn value).1 = some (wrapErr "hostingde: " e)
    ∧ (hdePresent envH stH domain fqdn value).2.records = stH.records
    ∧ (hdePresent envH stH domain fqdn value).2.events = stH.events ++ [Ev.getZone]
    ∧ (netcupPresent envN stN domain fqdn value).1 = none
    ∧ (netcupPresent envN stN domain fqdn value).2.events
        = stN.events ++ [Ev.login, Ev.getRecords, Ev.updateRecords, Ev.logout]
    ∧ (netcupPresent envN stN domain fqdn value).2.records
        = stN.records
          ++ [{ id := stN.nextId, hostname := replaceFirst fqdn ("." ++ zN) "",
                recordType := "TXT", destination := value, deleteRecord := false,
                ttl := envN.ttl }] := by
  refine ⟨?_, ?_, ?_, ?_, ?_, ?_⟩
  · simp [hdePresent, hdeGetZone, hgzH]
  · simp [hdePresent, hdeGetZone, hgzH]
  · simp [hdePresent, hdeGetZone, hgzH]
  · simp [netcupPresent, netcupLogin, netcupLogout, netcupGetDNSRecords,
      netcupUpdateDNSRecord, netcupApplyOne, hzN, hloginN, hgetN, hupdN]
  · simp [netcupPresent, netcupLogin, netcupLogout, netcupGetDNSRecords,
      netcupUpdateDNSRecord, netcupApplyOne, hzN, hloginN, hgetN, hupdN]
  · simp [netcupPresent, netcupLogin, netcupLogout, netcupGetDNSRecords,
      netcupUpdateDNSRecord, netcupApplyOne, hzN, hloginN, hgetN, hupdN]

/-- hostingde environment whose zone-config fetch fails. -/
def hdeGetZoneFailEnv : HdeEnv :=
  { hdeNominalEnv with getZoneErr := some (Err.other "fetch failed") }

/-- Witness for the amended C6 at concrete inputs. -/
theorem c6_witness :
    (hdePresent hdeGetZoneFailEnv hdeEmptyState "example.com"
      "_acme-challenge.example.com." "value").1
        = some (wrapErr "hostingde: " (Err.other "fetch failed"))
    ∧ (hdePresent hdeGetZoneFailEnv hdeEmptyState "example.com"
        "_acme-challenge.example.com." "value").2.records = hdeEmptyState.records
    ∧ (hdePresent hdeGetZoneFailEnv hdeEmptyState "example.com"
        "_acme-challenge.example.com." "value").2.events
        = hdeEmptyState.events ++ [Ev.getZone]
    ∧ (netcupPresent netcupGetFailEnv netcupEmptyState "example.com"
        "_acme-challenge.example.com." "value").1 = none
    ∧ (netcupPresent netcupGetFailEnv netcupEmptyState "example.com"
        "_acme-challenge.example.com." "value").2.events
        = netcupEmptyState.events
          ++ [Ev.login, Ev.getRecords, Ev.updateRecords, Ev.logout]
    ∧ (netcupPresent netcupGetFailEnv netcupEmptyState "example.com"
        "_acme-challenge.example.com." "value").2.records
        = netcupEmptyState.records
          ++ [{ id := netcupEmptyState.nextId,
                hostname := replaceFirst "_acme-challenge.example.com."
                  ("." ++ "example.com.") "",
                recordType := "TXT", destination := "value", deleteRecord := false,
                ttl := netcupGetFailEnv.ttl }] :=
  c6_zone_fetch_failure hdeGetZoneFailEnv netcupGetFailEnv hdeEmptyState
    netcupEmptyState "example.com" "_acme-challenge.example.com." "value"
    "example.com." (Err.other "fetch failed") (Err.other "boom")
    rfl rfl rfl rfl rfl

/-! ## Claim C3 (session bracket: logout runs exactly once on failure) -/

/-- C3: for the session-bracketed adapters (inwx, netcup), in every Present
or CleanUp call in which login succeeded and a later step fails, the logout
step is still invoked exactly once before the error is returned.  The
conjuncts cover every error-returning later-step failure mode: inwx Present
with a failing create (any failure other than the "Object exists" response),
inwx CleanUp with a failing record listing (Info), inwx CleanUp with failing
record deletions, netcup Present with a failing update, netcup CleanUp with
a failing records fetch, netcup CleanUp failing to locate the record
(GetDNSRecordIdx), and netcup CleanUp with a failing update.  Each group
states the exact call trace (one logout, after the failing call), that the
trace's logout count rises by exactly one, and the returned wrapped
error. -/
theorem c3_logout_exactly_once_on_failure
    (envI envI2 : InwxEnv) (envN envN2 envN3 : NetcupEnv)
    (stI stI2 stI3 : InwxState) (stN stN2 stN3 stN4 : NetcupState)
    (domain fqdn value zI zI2 zN zN2 zN3 : String) (e1 e2 e3 e4 e6 : Err)
    (i : Nat)
    (hzI : envI.findZone fqdn = Except.ok zI)
    (hloginI : envI.loginErr = none)
    (hcreate : envI.createErr = some e1)
    (hne : ∀ m, e1 = Err.errorResponse m → m ≠ "Object exists")
    (hinfo : envI.infoErr = some e2)
    (hzI2 : envI2.findZone fqdn = Except.ok zI2)
    (hloginI2 : envI2.loginErr = none)
    (hinfoI2 : envI2.infoErr = none)
    (hfail : ((stI3.records.filter (fun x =>
        x.domain == unFqdn zI2 && x.name == unFqdn fqdn
          && x.typ == "TXT")).filterMap (fun r => envI2.deleteErr r.id)) ≠ [])
    (hzN : envN.findZone fqdn = Except.ok zN)
    (hloginN : envN.loginErr = none)
    (hgetN : envN.getErr = none)
    (hupdN : envN.updateErr = some e3)
    (hzN2 : envN2.findZone fqdn = Except.ok zN2)
    (hloginN2 : envN2.loginErr = none)
    (hgetN2 : envN2.getErr = some e4)
    (hzN3 : envN3.findZone fqdn = Except.ok zN3)
    (hloginN3 : envN3.loginErr = none)
    (hgetN3 : envN3.getErr = none)
    (hupdN3 : envN3.updateErr = some e6)
    (hidx3 : firstIdx (fun x =>
      x.hostname == replaceFirst fqdn ("." ++ zN3) "" && x.recordType == "TXT"
        && x.destination == value) stN3.records = none)
    (hidx4 : firstIdx (fun x =>
      x.hostname == replaceFirst fqdn ("." ++ zN3) "" && x.recordType == "TXT"
        && x.destination == value) stN4.records = some i) :
    ((inwxPresent envI stI domain fqdn value).2.events
        = stI.events ++ [Ev.login, Ev.createRecord, Ev.logout]
      ∧ logoutCount (inwxPresent envI stI domain fqdn value).2.events
          = logoutCount stI.events + 1
      ∧ (inwxPresent envI stI domain fqdn value).1 = some (wrapErr "inwx: " e1))
    ∧ ((inwxCleanUp envI stI2 domain fqdn value).2.events
        = stI2.events ++ [Ev.login, Ev.nsInfo, Ev.logout]
      ∧ logoutCount (inwxCleanUp envI stI2 domain fqdn value).2.events
          = logoutCount stI2.events + 1
      ∧ (inwxCleanUp envI stI2 domain fqdn value).1 = some (wrapErr "inwx: " e2))
    ∧ ((inwxCleanUp envI2 stI3 domain fqdn value).2.events
        = stI3.events ++ [Ev.login, Ev.nsInfo]
          ++ ((stI3.records.filter (fun x =>
              x.domain == unFqdn zI2 && x.name == unFqdn fqdn
                && x.typ == "TXT")).map (fun r => Ev.deleteRec r.id))
          ++ [Ev.logout]
      ∧ logoutCount (inwxCleanUp envI2 stI3 domain fqdn value).2.events
          = logoutCount stI3.events + 1
      ∧ (inwxCleanUp envI2 stI3 domain fqdn value).1 ≠ none)
    ∧ ((netcupPresent envN stN domain fqdn value).2.events
        = stN.events ++ [Ev.login, Ev.getRecords, Ev.updateRecords, Ev.logout]
      ∧ logoutCount (netcupPresent envN stN domain fqdn value).2.events
          = logoutCount stN.events + 1
      ∧ (netcupPresent envN stN domain fqdn value).1
          = some (wrapErr "netcup: failed to add TXT-Record: " e3))
    ∧ ((netcupCleanUp envN2 stN2 domain fqdn value).2.events
        = stN2.events ++ [Ev.login, Ev.getRecords, Ev.logout]
      ∧ logoutCount (netcupCleanUp envN2 stN2 domain fqdn value).2.events
          = logoutCount stN2.events + 1
      ∧ (netcupCleanUp envN2 stN2 domain fqdn value).1
          = some (wrapErr "netcup: " e4))
    ∧ ((netcupCleanUp envN3 stN3 domain fqdn value).2.events
        = stN3.events ++ [Ev.login, Ev.getRecords, Ev.logout]
      ∧ logoutCount (netcupCleanUp envN3 stN3 domain fqdn value).2.events
          = logoutCount stN3.events + 1
      ∧ (netcupCleanUp envN3 stN3 domain fqdn value).1
          = some (wrapErr "netcup: " (Err.other "no DNS Record found")))
    ∧ ((netcupCleanUp envN3 stN4 domain fqdn value).2.events
        = stN4.events ++ [Ev.login, Ev.getRecords, Ev.updateRecords, Ev.logout]
      ∧ logoutCount (netcupCleanUp envN3 stN4 domain fqdn value).2.events
          = logoutCount stN4.events + 1
      ∧ (netcupCleanUp envN3 stN4 domain fqdn value).1
          = some (wrapErr "netcup: " e6)) := by
  refine ⟨⟨?_, ?_, ?_⟩, ⟨?_, ?_, ?_⟩, ⟨?_, ?_, ?_⟩, ⟨?_, ?_, ?_⟩, ⟨?_, ?_, ?_⟩,
    ⟨?_, ?_, ?_⟩, ⟨?_, ?_, ?_⟩⟩
  · simp [inwxPresent, inwxLogin, inwxLogout, inwxCreateRecord, hzI, hloginI, hcreate]
  · simp [inwxPresent, inwxLogin, inwxLogout, inwxCreateRecord, hzI, hloginI,
      hcreate, logoutCount, List.countP_append, List.countP_cons]
  · simp only [inwxPresent, inwxLogin, inwxLogout, inwxCreateRecord, hzI,
      hloginI, hcreate]
    cases e1 with
    | errorResponse m =>
      have hm : (m == "Object exists") = false :=
        beq_eq_false_iff_ne.mpr (hne m rfl)
      simp [hm]
    | other m => simp
  · simp [inwxCleanUp, inwxLogin, inwxLogout, inwxNsInfo, hzI, hloginI, hinfo]
  · simp [inwxCleanUp, inwxLogin, inwxLogout, inwxNsInfo, hzI, hloginI, hinfo,
      logoutCount, List.countP_append, List.countP_cons]
  · simp [inwxCleanUp, inwxLogin, inwxLogout, inwxNsInfo, hzI, hloginI, hinfo]
  · simp only [inwxCleanUp, inwxLogin, inwxNsInfo, inwxLogout, inwxDelLoop,
      hzI2, hloginI2, hinfoI2]
    rw [inwxDelLoop_trace]
    simp
  · simp only [inwxCleanUp, inwxLogin, inwxNsInfo, inwxLogout, inwxDelLoop,
      hzI2, hloginI2, hinfoI2]
    rw [inwxDelLoop_trace]
    simp [logoutCount, List.countP_append, List.countP_cons,
      countP_logout_deleteRec_map]
  · simp only [inwxCleanUp, inwxLogin, inwxNsInfo, inwxLogout, inwxDelLoop,
      hzI2, hloginI2, hinfoI2]
    rw [inwxDelLoop_lastErr]
    exact matchLast_ne_none _ hfail
  · simp [netcupPresent, netcupLogin, netcupLogout, netcupGetDNSRecords,
      netcupUpdateDNSRecord, hzN, hloginN, hgetN, hupdN]
  · simp [netcupPresent, netcupLogin, netcupLogout, netcupGetDNSRecords,
      netcupUpdateDNSRecord, hzN, hloginN, hgetN, hupdN, logoutCount,
      List.countP_append, List.countP_cons]
  · simp [netcupPresent, netcupLogin, netcupLogout, netcupGetDNSRecords,
      netcupUpdateDNSRecord, hzN, hloginN, hgetN, hupdN]
  · simp [netcupCleanUp, netcupLogin, netcupLogout, netcupGetDNSRecords, hzN2,
      hloginN2, hgetN2]
  · simp [netcupCleanUp, netcupLogin, netcupLogout, netcupGetDNSRecords, hzN2,
      hloginN2, hgetN2, logoutCount, List.countP_append, List.countP_cons]
  · simp [netcupCleanUp, netcupLogin, netcupLogout, netcupGetDNSRecords, hzN2,
      hloginN2, hgetN2]
  · simp only [netcupCleanUp, netcupLogin, netcupLogout, netcupGetDNSRecords,
      netcupGetDNSRecordIdx, hzN3, hloginN3, hgetN3]
    rw [hidx3]
    simp
  · simp only [netcupCleanUp, netcupLogin, netcupLogout, netcupGetDNSRecords,
      netcupGetDNSRecordIdx, hzN3, hloginN3, hgetN3]
    rw [hidx3]
    simp [logoutCount, List.countP_append, List.countP_cons]
  · simp only [netcupCleanUp, netcupLogin, netcupLogout, netcupGetDNSRecords,
      netcupGetDNSRecordIdx, hzN3, hloginN3, hgetN3]
    rw [hidx3]
  · simp only [netcupCleanUp, netcupLogin, netcupLogout, netcupGetDNSRecords,
      netcupUpdateDNSRecord, netcupGetDNSRecordIdx, hzN3, hloginN3, hgetN3,
      hupdN3]
    rw [hidx4]
    simp
  · simp only [netcupCleanUp, netcupLogin, netcupLogout, netcupGetDNSRecords,
      netcupUpdateDNSRecord, netcupGetDNSRecordIdx, hzN3, hloginN3, hgetN3,
      hupdN3]
    rw [hidx4]
    simp [logoutCount, List.countP_append, List.countP_cons]
  · simp only [netcupCleanUp, netcupLogin, netcupLogout, netcupGetDNSRecords,
      netcupUpdateDNSRecord, netcupGetDNSRecordIdx, hzN3, hloginN3, hgetN3,
      hupdN3]
    rw [hidx4]

/-- inwx environment whose create call fails with a non-"Object exists"
provider error. -/
def inwxCreateFailEnv : InwxEnv :=
  { inwxNominalEnv with
    createErr := some (Err.other "create failed")
    infoErr := some (Err.other "info failed") }

/-- netcup environment whose update call fails. -/
def netcupUpdateFailEnv : NetcupEnv :=
  { netcupNominalEnv with updateErr := some (Err.other "update failed") }

/-- Witness for C3 at concrete inputs, one per failure mode. -/
theorem c3_witness :
    ((inwxPresent inwxCreateFailEnv inwxEmptyState "example.com"
        "_acme-challenge.example.com." "value").2.events
        = inwxEmptyState.events ++ [Ev.login, Ev.createRecord, Ev.logout]
      ∧ logoutCount (inwxPresent inwxCreateFailEnv inwxEmptyState "example.com"
          "_acme-challenge.example.com." "value").2.events
          = logoutCount inwxEmptyState.events + 1
      ∧ (inwxPresent inwxCreateFailEnv inwxEmptyState "example.com"
          "_acme-challenge.example.com." "value").1
          = some (wrapErr "inwx: " (Err.other "create failed")))
    ∧ ((inwxCleanUp inwxCreateFailEnv inwxEmptyState "example.com"
        "_acme-challenge.example.com." "value").2.events
        = inwxEmptyState.events ++ [Ev.login, Ev.nsInfo, Ev.logout]
      ∧ logoutCount (inwxCleanUp inwxCreateFailEnv inwxEmptyState "example.com"
          "_acme-challenge.example.com." "value").2.events
          = logoutCount inwxEmptyState.events + 1
      ∧ (inwxCleanUp inwxCreateFailEnv inwxEmptyState "example.com"
          "_acme-challenge.example.com." "value").1
          = some (wrapErr "inwx: " (Err.other "info failed")))
    ∧ ((inwxCleanUp inwxDeleteFailEnv inwxTwoRecordState "example.com"
        "_acme-challenge.example.com." "value").2.events
        = inwxTwoRecordState.events ++ [Ev.login, Ev.nsInfo]
          ++ ((inwxTwoRecordState.records.filter (fun x =>
              x.domain == unFqdn "example.com."
                && x.name == unFqdn "_acme-challenge.example.com."
                && x.typ == "TXT")).map (fun r => Ev.deleteRec r.id))
          ++ [Ev.logout]
      ∧ logoutCount (inwxCleanUp inwxDeleteFailEnv inwxTwoRecordState
          "example.com" "_acme-challenge.example.com." "value").2.events
          = logoutCount inwxTwoRecordState.events + 1
      ∧ (inwxCleanUp inwxDeleteFailEnv inwxTwoRecordState "example.com"
          "_acme-challenge.example.com." "value").1 ≠ none)
    ∧ ((netcupPresent netcupUpdateFailEnv netcupEmptyState "example.com"
        "_acme-challenge.example.com." "value").2.events
        = netcupEmptyState.events
          ++ [Ev.login, Ev.getRecords, Ev.updateRecords, Ev.logout]
      ∧ logoutCount (netcupPresent netcupUpdateFailEnv netcupEmptyState
          "example.com" "_acme-challenge.example.com." "value").2.events
          = logoutCount netcupEmptyState.events + 1
      ∧ (netcupPresent netcupUpdateFailEnv netcupEmptyState "example.com"
          "_acme-challenge.example.com." "value").1
          = some (wrapErr "netcup: failed to add TXT-Record: "
              (Err.other "update failed")))
    ∧ ((netcupCleanUp netcupGetFailEnv netcupEmptyState "example.com"
        "_acme-challenge.example.com." "value").2.events
        = netcupEmptyState.events ++ [Ev.login, Ev.getRecords, Ev.logout]
      ∧ logoutCount (netcupCleanUp netcupGetFailEnv netcupEmptyState
          "example.com" "_acme-challenge.example.com." "value").2.events
          = logoutCount netcupEmptyState.events + 1
      ∧ (netcupCleanUp netcupGetFailEnv netcupEmptyState "example.com"
          "_acme-challenge.example.com." "value").1
          = some (wrapErr "netcup: " (Err.other "boom")))
    ∧ ((netcupCleanUp netcupUpdateFailEnv netcupEmptyState "example.com"
        "_acme-challenge.example.com." "value").2.events
        = netcupEmptyState.events ++ [Ev.login, Ev.getRecords, Ev.logout]
      ∧ logoutCount (netcupCleanUp netcupUpdateFailEnv netcupEmptyState
          "example.com" "_acme-challenge.example.com." "value").2.events
          = logoutCount netcupEmptyState.events + 1
      ∧ (netcupCleanUp netcupUpdateFailEnv netcupEmptyState "example.com"
          "_acme-challenge.example.com." "value").1
          = some (wrapErr "netcup: " (Err.other "no DNS Record found")))
    ∧ ((netcupCleanUp netcupUpdateFailEnv netcupTwoRecordState "example.com"
        "_acme-challenge.example.com." "value").2.events
        = netcupTwoRecordState.events
          ++ [Ev.login, Ev.getRecords, Ev.updateRecords, Ev.logout]
      ∧ logoutCount (netcupCleanUp netcupUpdateFailEnv netcupTwoRecordState
          "example.com" "_acme-challenge.example.com." "value").2.events
          = logoutCount netcupTwoRecordState.events + 1
      ∧ (netcupCleanUp netcupUpdateFailEnv netcupTwoRecordState "example.com"
          "_acme-challenge.example.com." "value").1
          = some (wrapErr "netcup: " (Err.other "update failed"))) :=
  c3_logout_exactly_once_on_failure inwxCreateFailEnv inwxDeleteFailEnv
    netcupUpdateFailEnv netcupGetFailEnv netcupUpdateFailEnv
    inwxEmptyState inwxEmptyState inwxTwoRecordState
    netcupEmptyState netcupEmptyState netcupEmptyState netcupTwoRecordState
    "example.com" "_acme-challenge.example.com." "value"
    "example.com." "example.com." "example.com." "example.com." "example.com."
    (Err.other "create failed") (Err.other "info failed")
    (Err.other "update failed") (Err.other "boom") (Err.other "update failed") 1
    rfl rfl rfl (fun m hm => by cases hm) rfl
    rfl rfl rfl (by decide)
    rfl rfl rfl rfl
    rfl rfl rfl
    rfl rfl rfl rfl
    (by decide) (by decide)

/-! ## Claim C1 (Present idempotence) -/

/-- C1 counterexample: two successive netcup Present calls with identical
valid arguments, starting from an empty zone, leave TWO TXT records with the
requested (name, value) in the zone while neither call returns an error: the
second Present fetches the zone (now holding the record), appends the record
again without an id and submits the whole list, and the provider stores the
id-less duplicate as a second record.  This contradicts the claim that
exactly one such record remains. -/
theorem c1_counterexample :
    (netcupPresent netcupNominalEnv netcupEmptyState "example.com"
      "_acme-challenge.example.com." "value").1 = none
    ∧ (netcupPresent netcupNominalEnv
        (netcupPresent netcupNominalEnv netcupEmptyState "example.com"
          "_acme-challenge.example.com." "value").2 "example.com"
        "_acme-challenge.example.com." "value").1 = none
    ∧ ((netcupPresent netcupNominalEnv
        (netcupPresent netcupNominalEnv netcupEmptyState "example.com"
          "_acme-challenge.example.com." "value").2 "example.com"
        "_acme-challenge.example.com." "value").2.records.countP
        (fun r => r.hostname == "_acme-challenge" && r.recordType == "TXT"
          && r.destination == "value")) = 2 := by
  refine ⟨?_, ?_, ?_⟩ <;> decide

/-- C1 (amended): for the inwx adapter, for every valid (domain, fqdn,
value) and every zone not already containing a matching TXT record, calling
Present twice in sequence leaves exactly one TXT record with that
(name, value) in the zone and neither call returns an error (the second
create is answered with the provider's "Object exists" condition, which
Present treats as success).  The netcup adapter is excluded: its second
Present submits the record again without an id, leaving a second identical
record (see the counterexample). -/
theorem c1_inwx_present_idempotent (env : InwxEnv) (st : InwxState)
    (domain fqdn value z : String)
    (hz : env.findZone fqdn = Except.ok z)
    (hlogin : env.loginErr = none) (hcreate : env.createErr = none)
    (hpre : ∀ r ∈ st.records,
      ¬(r.name = unFqdn fqdn ∧ r.typ = "TXT" ∧ r.content = value)) :
    (inwxPresent env st domain fqdn value).1 = none
    ∧ (inwxPresent env (inwxPresent env st domain fqdn value).2 domain
        fqdn value).1 = none
    ∧ ((inwxPresent env (inwxPresent env st domain fqdn value).2 domain fqdn
        value).2.records.countP
        (fun r => r.name == unFqdn fqdn && r.typ == "TXT" && r.content == value))
      = 1 := by
  have hany : (st.records.any (fun x =>
      x.domain == unFqdn z && x.name == unFqdn fqdn && x.typ == "TXT"
        && x.content == value)) = false := by
    rw [List.any_eq_false]
    intro x hx hcontra
    simp only [Bool.and_eq_true, beq_iff_eq] at hcontra
    exact hpre x hx ⟨hcontra.1.1.2, hcontra.1.2, hcontra.2⟩
  have e1 : inwxPresent env st domain fqdn value
      = (none,
         { records := st.records
             ++ [{ id := st.nextId, domain := unFqdn z, name := unFqdn fqdn,
                   typ := "TXT", content := value, ttl := env.ttl }],
           nextId := st.nextId + 1,
           events := st.events ++ [Ev.login, Ev.createRecord, Ev.logout] }) := by
    simp [inwxPresent, inwxLogin, inwxLogout, inwxCreateRecord, hz, hlogin,
      hcreate, hany]
  have hany2 : ((st.records
      ++ [({ id := st.nextId, domain := unFqdn z, name := unFqdn fqdn,
             typ := "TXT", content := value, ttl := env.ttl } : InwxRecord)]).any
      (fun x =>
        x.domain == unFqdn z && x.name == unFqdn fqdn && x.typ == "TXT"
          && x.content == value)) = true := by
    rw [List.any_append]
    simp
  have hcount : (st.records.countP
      (fun r => r.name == unFqdn fqdn && r.typ == "TXT" && r.content == value)) = 0 := by
    rw [List.countP_eq_zero]
    intro r hr hcontra
    simp only [Bool.and_eq_true, beq_iff_eq] at hcontra
    exact hpre r hr ⟨hcontra.1.1, hcontra.1.2, hcontra.2⟩
  refine ⟨by rw [e1], ?_, ?_⟩
  · rw [e1]
    simp only [inwxPresent, inwxLogin, inwxLogout, inwxCreateRecord, hz,
      hlogin, hcreate]
    simp [hany2]
  · rw [e1]
    simp only [inwxPresent, inwxLogin, inwxLogout, inwxCreateRecord, hz,
      hlogin, hcreate]
    simp [hany2, List.countP_append, hcount, List.countP_cons]

/-- Witness for the amended C1 at a concrete input: an empty inwx zone. -/
theorem c1_witness :
    (inwxPresent inwxNominalEnv inwxEmptyState "example.com"
      "_acme-challenge.example.com." "value").1 = none
    ∧ (inwxPresent inwxNominalEnv
        (inwxPresent inwxNominalEnv inwxEmptyState "example.com"
          "_acme-challenge.example.com." "value").2 "example.com"
        "_acme-challenge.example.com." "value").1 = none
    ∧ ((inwxPresent inwxNominalEnv
        (inwxPresent inwxNominalEnv inwxEmptyState "example.com"
          "_acme-challenge.example.com." "value").2 "example.com"
        "_acme-challenge.example.com." "value").2.records.countP
        (fun r => r.name == unFqdn "_acme-challenge.example.com."
          && r.typ == "TXT" && r.content == "value")) = 1 :=
  c1_inwx_present_idempotent inwxNominalEnv inwxEmptyState "example.com"
    "_acme-challenge.example.com." "value" "example.com." rfl rfl rfl
    (fun r hr => absurd hr (List.not_mem_nil r))

/-! ## Claim C2 (Present followed by CleanUp restores the zone) -/

/-- Resubmitting records the provider already stores (same ids, not flagged
for deletion) leaves a netcup zone unchanged. -/
lemma netcupApplyAll_self (l : List NetcupDNSRecord) :
    ∀ (rs : List NetcupDNSRecord) (nid : Nat),
      ((rs.map (fun r => r.id)).Nodup) →
      (∀ r ∈ l, r ∈ rs ∧ r.deleteRecord = false ∧ r.id ≠ 0) →
      l.foldl netcupApplyOne (rs, nid) = (rs, nid) := by
  induction l with
  | nil => intro rs nid _ _; rfl
  | cons a rest ih =>
    intro rs nid hnd hl
    obtain ⟨hmem, hdel, hid⟩ := hl a (by simp)
    have hid0 : (a.id == 0) = false := beq_eq_false_iff_ne.mpr hid
    have hmap : rs.map (fun x => if x.id == a.id then a else x) = rs := by
      have hptw : ∀ x ∈ rs, (if x.id == a.id then a else x) = x := by
        intro x hx
        by_cases hxa : x.id = a.id
        · have hxeq : x = a := List.inj_on_of_nodup_map hnd hx hmem hxa
          simp [hxeq]
        · simp [beq_eq_false_iff_ne.mpr hxa]
      conv_rhs => rw [← List.map_id rs]
      exact List.map_congr_left hptw
    have hstep : netcupApplyOne (rs, nid) a = (rs, nid) := by
      simp only [netcupApplyOne, hdel, hid0, Bool.false_eq_true, if_false]
      rw [hmap]
    rw [List.foldl_cons, hstep]
    exact ih rs nid hnd (fun r hr => hl r (by simp [hr]))

/-- Index of the appended element when nothing before it matches. -/
lemma firstIdx_append_singleton {α : Type} (p : α → Bool) (l : List α) (a : α)
    (hl : ∀ x ∈ l, p x = false) (ha : p a = true) :
    firstIdx p (l ++ [a]) = some l.length := by
  induction l with
  | nil => simp [firstIdx, ha]
  | cons b rest ih =>
    have hb := hl b (by simp)
    have ih' := ih (fun x hx => hl x (by simp [hx]))
    simp only [List.cons_append, firstIdx, hb, Bool.false_eq_true, if_false]
    rw [show List.append rest [a] = rest ++ [a] from rfl, ih']
    simp

/-- Reading the appended element back by its index. -/
lemma getD_append_singleton {α : Type} (l : List α) (a d : α) :
    (l ++ [a]).getD l.length d = a := by
  induction l with
  | nil => rfl
  | cons b rest ih =>
    simp only [List.length_cons, List.cons_append, List.getD_cons_succ]
    exact ih

/-- netcup round trip: from a well-formed zone that does not already contain
the challenge record, Present adds exactly the new TXT record, and CleanUp
locates and deletes exactly that record, restoring the zone's record set. -/
lemma netcup_roundtrip (env : NetcupEnv) (st : NetcupState)
    (domainName fqdn value z : String)
    (hz : env.findZone fqdn = Except.ok z)
    (hlogin : env.loginErr = none) (hget : env.getErr = none)
    (hupd : env.updateErr = none)
    (hnd : (st.records.map (fun r => r.id)).Nodup)
    (hwf : ∀ r ∈ st.records, r.deleteRecord = false ∧ r.id ≠ 0 ∧ r.id < st.nextId)
    (hpre : ∀ r ∈ st.records,
      (r.hostname == replaceFirst fqdn ("." ++ z) "" && r.recordType == "TXT"
        && r.destination == value) = false) :
    (netcupPresent env st domainName fqdn value).1 = none
    ∧ (netcupCleanUp env (netcupPresent env st domainName fqdn value).2
        domainName fqdn value).1 = none
    ∧ (netcupCleanUp env (netcupPresent env st domainName fqdn value).2
        domainName fqdn value).2.records = st.records := by
  have happ : (st.records
      ++ [({ id := 0, hostname := replaceFirst fqdn ("." ++ z) "",
             recordType := "TXT", destination := value, deleteRecord := false,
             ttl := env.ttl } : NetcupDNSRecord)]).foldl netcupApplyOne
        (st.records, st.nextId)
      = (st.records
          ++ [({ id := st.nextId, hostname := replaceFirst fqdn ("." ++ z) "",
                 recordType := "TXT", destination := value, deleteRecord := false,
                 ttl := env.ttl } : NetcupDNSRecord)], st.nextId + 1) := by
    rw [List.foldl_append,
      netcupApplyAll_self st.records st.records st.nextId hnd
        (fun r hr => ⟨hr, (hwf r hr).1, (hwf r hr).2.1⟩)]
    simp [netcupApplyOne]
  have e1 : netcupPresent env st domainName fqdn value
      = (none,
         { records := st.records
             ++ [({ id := st.nextId, hostname := replaceFirst fqdn ("." ++ z) "",
                    recordType := "TXT", destination := value,
                    deleteRecord := false, ttl := env.ttl } : NetcupDNSRecord)],
           nextId := st.nextId + 1,
           events := st.events
             ++ [Ev.login, Ev.getRecords, Ev.updateRecords, Ev.logout] }) := by
    simp only [netcupPresent, netcupLogin, netcupLogout, netcupGetDNSRecords,
      netcupUpdateDNSRecord, hz, hlogin, hget, hupd]
    rw [happ]
    simp
  have hfi : firstIdx (fun x =>
      x.hostname == replaceFirst fqdn ("." ++ z) "" && x.recordType == "TXT"
        && x.destination == value)
      (st.records
        ++ [({ id := st.nextId, hostname := replaceFirst fqdn ("." ++ z) "",
               recordType := "TXT", destination := value, deleteRecord := false,
               ttl := env.ttl } : NetcupDNSRecord)]) = some st.records.length :=
    firstIdx_append_singleton _ st.records _ hpre (by simp)
  have hfil : (st.records
      ++ [({ id := st.nextId, hostname := replaceFirst fqdn ("." ++ z) "",
             recordType := "TXT", destination := value, deleteRecord := false,
             ttl := env.ttl } : NetcupDNSRecord)]).filter
        (fun x => !(x.id == st.nextId)) = st.records := by
    rw [List.filter_append]
    have h1 : st.records.filter (fun x => !(x.id == st.nextId)) = st.records :=
      List.filter_eq_self.mpr (fun r hr => by
        have hne : r.id ≠ st.nextId := Nat.ne_of_lt (hwf r hr).2.2
        simp [hne])
    have h2 : ([({ id := st.nextId, hostname := replaceFirst fqdn ("." ++ z) "",
                   recordType := "TXT", destination := value, deleteRecord := false,
                   ttl := env.ttl } : NetcupDNSRecord)]).filter
        (fun x => !(x.id == st.nextId)) = [] := by simp
    rw [h1, h2, List.append_nil]
  refine ⟨by rw [e1], ?_, ?_⟩
  · rw [e1]
    simp only [netcupCleanUp, netcupLogin, netcupLogout, netcupGetDNSRecords,
      netcupUpdateDNSRecord, netcupGetDNSRecordIdx, hz, hlogin, hget, hupd]
    rw [hfi]
  · rw [e1]
    simp only [netcupCleanUp, netcupLogin, netcupLogout, netcupGetDNSRecords,
      netcupUpdateDNSRecord, netcupGetDNSRecordIdx, hz, hlogin, hget, hupd]
    rw [hfi]
    simp only [getD_append_singleton]
    simp only [List.foldl_cons, List.foldl_nil, netcupApplyOne]
    simp [hfil]

/-- hostingde round trip: from a zone that does not already contain the
challenge record, Present adds exactly the new TXT record (stored with
exact-quoted content) and confirms it, and CleanUp's delete set removes
exactly that record, restoring the zone's record set. -/
lemma hde_roundtrip (env : HdeEnv) (st : HdeState) (domain fqdn value : String)
    (hgz : env.getZoneErr = none) (huz : env.updateZoneErr = none)
    (hrid : ∀ rs, env.respRecords rs = rs)
    (hpre : ∀ r ∈ st.records, ¬(r.name = unFqdn fqdn ∧ r.content = quoteS value)) :
    (hdePresent env st domain fqdn value).1 = none
    ∧ (hdeCleanUp env (hdePresent env st domain fqdn value).2 domain
        fqdn value).1 = none
    ∧ (hdeCleanUp env (hdePresent env st domain fqdn value).2 domain
        fqdn value).2.records = st.records := by
  have hpreB : ∀ r ∈ st.records,
      (r.name == unFqdn fqdn && r.content == quoteS value) = false := by
    intro r hr
    by_cases h1 : r.name = unFqdn fqdn
    · by_cases h2 : r.content = quoteS value
      · exact absurd ⟨h1, h2⟩ (hpre r hr)
      · simp [beq_eq_false_iff_ne.mpr h2]
    · simp [beq_eq_false_iff_ne.mpr h1]
  have hscan : (st.records
      ++ [({ id := "r" ++ Nat.repr st.nextId, name := unFqdn fqdn, typ := "TXT",
             content := quoteS value, ttl := env.ttl } : HdeDNSRecord)]).foldl
        (hdeScanStep fqdn value) st.recordIDs
      = mapInsert st.recordIDs fqdn ("r" ++ Nat.repr st.nextId) := by
    rw [List.foldl_append, hdeScan_no_match fqdn value st.records st.recordIDs hpreB]
    simp [hdeScanStep]
  have hlook : (mapLookup (mapInsert st.recordIDs fqdn ("r" ++ Nat.repr st.nextId))
      fqdn == "") = false := by
    rw [mapLookup_insert]
    exact beq_eq_false_iff_ne.mpr (hdeId_ne_empty st.nextId)
  have e1 : hdePresent env st domain fqdn value
      = (none,
         { records := st.records
             ++ [({ id := "r" ++ Nat.repr st.nextId, name := unFqdn fqdn,
                    typ := "TXT", content := quoteS value,
                    ttl := env.ttl } : HdeDNSRecord)],
           nextId := st.nextId + 1,
           recordIDs := mapInsert st.recordIDs fqdn ("r" ++ Nat.repr st.nextId),
           events := st.events ++ [Ev.getZone, Ev.updateZone] }) := by
    simp only [hdePresent, hdeGetZone, hdeUpdateZone, hdeAddOne,
      hdeMatchesDelete, hgz, huz, hrid, List.foldl_cons, List.foldl_nil,
      List.any_nil, Bool.not_false, List.filter_true]
    rw [hscan]
    simp [hlook]
  have hfil : (st.records
      ++ [({ id := "r" ++ Nat.repr st.nextId, name := unFqdn fqdn, typ := "TXT",
             content := quoteS value, ttl := env.ttl } : HdeDNSRecord)]).filter
        (fun x => !(hdeMatchesDelete
          [({ id := "", name := unFqdn fqdn, typ := "TXT",
              content := quoteS value, ttl := 0 } : HdeDNSRecord)] x))
      = st.records := by
    rw [List.filter_append]
    have h1 : st.records.filter (fun x => !(hdeMatchesDelete
        [({ id := "", name := unFqdn fqdn, typ := "TXT",
            content := quoteS value, ttl := 0 } : HdeDNSRecord)] x))
        = st.records :=
      List.filter_eq_self.mpr (fun r hr => by
        by_cases hn : r.name = unFqdn fqdn
        · by_cases hc : r.content = quoteS value
          · exact absurd ⟨hn, hc⟩ (hpre r hr)
          · have hcb : (quoteS value == r.content) = false :=
              beq_eq_false_iff_ne.mpr (fun hh => hc hh.symm)
            simp [hdeMatchesDelete, hcb]
        · have hnb : (unFqdn fqdn == r.name) = false :=
            beq_eq_false_iff_ne.mpr (fun hh => hn hh.symm)
          simp [hdeMatchesDelete, hnb])
    have h2 : ([({ id := "r" ++ Nat.repr st.nextId, name := unFqdn fqdn,
                   typ := "TXT", content := quoteS value,
                   ttl := env.ttl } : HdeDNSRecord)]).filter
        (fun x => !(hdeMatchesDelete
          [({ id := "", name := unFqdn fqdn, typ := "TXT",
              content := quoteS value, ttl := 0 } : HdeDNSRecord)] x)) = [] := by
      simp [hdeMatchesDelete]
    rw [h1, h2, List.append_nil]
  refine ⟨by rw [e1], ?_, ?_⟩
  · rw [e1]
    simp only [hdeCleanUp, hdeGetZone, hdeUpdateZone, hgz, huz,
      List.foldl_nil]
  · rw [e1]
    simp only [hdeCleanUp, hdeGetZone, hdeUpdateZone, hgz, huz,
      List.foldl_nil]
    simp [hfil]

/-- C2 (amended): for every valid (domain, fqdn, value) and every
well-formed pre-existing zone record set that does NOT already contain a
record matching the challenge (name, value), a successful Present followed
by a successful CleanUp with the same arguments removes the record Present
created and leaves the zone's record set equal to its pre-Present state —
proved for both fetch-modify-submit adapters: netcup (delete of the first
(hostname, type, destination) match by id) and hostingde (delete set matched
by (name, type, exact-quoted content)).  Pre-existing zones already
containing a matching record are excluded: there the round trip is not
restorative (see the counterexample). -/
theorem c2_present_cleanup_roundtrip (envN : NetcupEnv) (envH : HdeEnv)
    (stN : NetcupState) (stH : HdeState)
    (domainName fqdn value z : String)
    (hz : envN.findZone fqdn = Except.ok z)
    (hlogin : envN.loginErr = none) (hget : envN.getErr = none)
    (hupd : envN.updateErr = none)
    (hnd : (stN.records.map (fun r => r.id)).Nodup)
    (hwf : ∀ r ∈ stN.records, r.deleteRecord = false ∧ r.id ≠ 0 ∧ r.id < stN.nextId)
    (hpreN : ∀ r ∈ stN.records,
      (r.hostname == replaceFirst fqdn ("." ++ z) "" && r.recordType == "TXT"
        && r.destination == value) = false)
    (hgz : envH.getZoneErr = none) (huz : envH.updateZoneErr = none)
    (hrid : ∀ rs, envH.respRecords rs = rs)
    (hpreH : ∀ r ∈ stH.records, ¬(r.name = unFqdn fqdn ∧ r.content = quoteS value)) :
    ((netcupPresent envN stN domainName fqdn value).1 = none
      ∧ (netcupCleanUp envN (netcupPresent envN stN domainName fqdn value).2
          domainName fqdn value).1 = none
      ∧ (netcupCleanUp envN (netcupPresent envN stN domainName fqdn value).2
          domainName fqdn value).2.records = stN.records)
    ∧ ((hdePresent envH stH domainName fqdn value).1 = none
      ∧ (hdeCleanUp envH (hdePresent envH stH domainName fqdn value).2
          domainName fqdn value).1 = none
      ∧ (hdeCleanUp envH (hdePresent envH stH domainName fqdn value).2
          domainName fqdn value).2.records = stH.records) :=
  ⟨netcup_roundtrip envN stN domainName fqdn value z hz hlogin hget hupd hnd
      hwf hpreN,
   hde_roundtrip envH stH domainName fqdn value hgz huz hrid hpreH⟩

/-- netcup state holding one unrelated well-formed record. -/
def netcupOneRecordState : NetcupState :=
  { records := [{ id := 5, hostname := "www", recordType := "A",
                  destination := "192.0.2.1", deleteRecord := false, ttl := 300 }],
    nextId := 6, events := [] }

/-- hostingde state holding one unrelated record. -/
def hdeOneRecordState : HdeState :=
  { records := [{ id := "r9", name := "www.example.com", typ := "A",
                  content := "192.0.2.1", ttl := 300 }],
    nextId := 10, recordIDs := [], events := [] }

/-- Witness for C2 at concrete inputs: zones holding one unrelated record
each are restored exactly after Present followed by CleanUp. -/
theorem c2_witness :
    ((netcupPresent netcupNominalEnv netcupOneRecordState "example.com"
        "_acme-challenge.example.com." "value").1 = none
      ∧ (netcupCleanUp netcupNominalEnv
          (netcupPresent netcupNominalEnv netcupOneRecordState "example.com"
            "_acme-challenge.example.com." "value").2 "example.com"
          "_acme-challenge.example.com." "value").1 = none
      ∧ (netcupCleanUp netcupNominalEnv
          (netcupPresent netcupNominalEnv netcupOneRecordState "example.com"
            "_acme-challenge.example.com." "value").2 "example.com"
          "_acme-challenge.example.com." "value").2.records
          = netcupOneRecordState.records)
    ∧ ((hdePresent hdeNominalEnv hdeOneRecordState "example.com"
        "_acme-challenge.example.com." "value").1 = none
      ∧ (hdeCleanUp hdeNominalEnv
          (hdePresent hdeNominalEnv hdeOneRecordState "example.com"
            "_acme-challenge.example.com." "value").2 "example.com"
          "_acme-challenge.example.com." "value").1 = none
      ∧ (hdeCleanUp hdeNominalEnv
          (hdePresent hdeNominalEnv hdeOneRecordState "example.com"
            "_acme-challenge.example.com." "value").2 "example.com"
          "_acme-challenge.example.com." "value").2.records
          = hdeOneRecordState.records) :=
  c2_present_cleanup_roundtrip netcupNominalEnv hdeNominalEnv
    netcupOneRecordState hdeOneRecordState "example.com"
    "_acme-challenge.example.com." "value" "example.com."
    rfl rfl rfl rfl (by decide) (by decide) (by decide) rfl rfl (fun _ => rfl)
    (by decide)

/-- netcup zone that already contains the challenge record before Present. -/
def netcupPreExistingState : NetcupState :=
  { records := [{ id := 1, hostname := "_acme-challenge", recordType := "TXT",
                  destination := "value", deleteRecord := false, ttl := 300 }],
    nextId := 2, events := [] }

/-- hostingde zone that already contains the challenge record (stored in
exact-quoted form) before Present. -/
def hdePreExistingState : HdeState :=
  { records := [{ id := "r0", name := "_acme-challenge.example.com",
                  typ := "TXT", content := "\"value\"", ttl := 300 }],
    nextId := 1, recordIDs := [], events := [] }

/-- C2 counterexample: concrete runs over pre-existing zone record sets that
already contain a record matching the challenge (name, value).  For both
netcup and hostingde, Present and the following CleanUp each succeed (nil
errors), yet the zone's record set afterwards differs from its pre-Present
state — contradicting the claim's quantification over EVERY pre-existing
record set.  netcup's CleanUp deletes only the first match (the pre-existing
record), keeping the one Present created under a fresh id; hostingde's
value-matched delete set removes the pre-existing record together with the
created one, leaving the zone empty. -/
theorem c2_counterexample :
    ((netcupPresent netcupNominalEnv netcupPreExistingState "example.com"
        "_acme-challenge.example.com." "value").1 = none
      ∧ (netcupCleanUp netcupNominalEnv
          (netcupPresent netcupNominalEnv netcupPreExistingState "example.com"
            "_acme-challenge.example.com." "value").2 "example.com"
          "_acme-challenge.example.com." "value").1 = none
      ∧ (netcupCleanUp netcupNominalEnv
          (netcupPresent netcupNominalEnv netcupPreExistingState "example.com"
            "_acme-challenge.example.com." "value").2 "example.com"
          "_acme-challenge.example.com." "value").2.records
          ≠ netcupPreExistingState.records)
    ∧ ((hdePresent hdeNominalEnv hdePreExistingState "example.com"
        "_acme-challenge.example.com." "value").1 = none
      ∧ (hdeCleanUp hdeNominalEnv
          (hdePresent hdeNominalEnv hdePreExistingState "example.com"
            "_acme-challenge.example.com." "value").2 "example.com"
          "_acme-challenge.example.com." "value").1 = none
      ∧ (hdeCleanUp hdeNominalEnv
          (hdePresent hdeNominalEnv hdePreExistingState "example.com"
            "_acme-challenge.example.com." "value").2 "example.com"
          "_acme-challenge.example.com." "value").2.records
          ≠ hdePreExistingState.records) := by
  refine ⟨⟨?_, ?_, ?_⟩, ⟨?_, ?_, ?_⟩⟩ <;> decide

/-! ## Claim C7 (record-ID cache consistency) -/

/-- C7 counterexample: a concrete successful checkdomain Present run after
which the adapter's cache (its `domainIDMapping`) contains NO entry keyed by
the fqdn — the entry it stores is keyed by the domain — contradicting the
claim that after a successful Present the cache contains an entry keyed by
the fqdn. -/
theorem c7_counterexample :
    (cdPresent cdNominalEnv cdEmptyState "example.com"
      "_acme-challenge.example.com." "value").1 = none
    ∧ ((cdPresent cdNominalEnv cdEmptyState "example.com"
        "_acme-challenge.example.com." "value").2.domainIDMapping.find?
        (fun p => p.1 == "_acme-challenge.example.com.")) = none := by
  refine ⟨?_, ?_⟩ <;> decide

/-- After a successful hostingde Present the record-ID map holds a non-empty
entry for the fqdn. -/
lemma hde_present_success_entry (env : HdeEnv) (st : HdeState)
    (domain fqdn value : String)
    (hgz : env.getZoneErr = none) (huz : env.updateZoneErr = none)
    (hp : (hdePresent env st domain fqdn value).1 = none) :
    mapLookup (hdePresent env st domain fqdn value).2.recordIDs fqdn ≠ "" := by
  simp only [hdePresent, hdeGetZone, hdeUpdateZone, hgz, huz,
    apply_ite Prod.fst, apply_ite Prod.snd, ite_self] at hp ⊢
  split at hp
  · exact absurd hp (by simp)
  · next h => simpa using h

/-- `find?` by a key returns nothing after that key is deleted from the
map. -/
lemma find?_mapDelete (m : List (String × String)) (k : String) :
    (mapDelete m k).find? (fun p => p.1 == k) = none := by
  rw [List.find?_eq_none]
  intro p hp
  have hmem := List.mem_filter.mp hp
  simpa using hmem.2

/-- After a hostingde CleanUp (past a successful zone fetch) the record-ID
map holds no entry for the fqdn. -/
lemma hde_cleanup_removes_entry (env : HdeEnv) (st : HdeState)
    (domain fqdn value : String)
    (hgz : env.getZoneErr = none) (huz : env.updateZoneErr = none) :
    ((hdeCleanUp env st domain fqdn value).2.recordIDs.find?
      (fun p => p.1 == fqdn)) = none := by
  simp only [hdeCleanUp, hdeGetZone, hdeUpdateZone, hgz, huz]
  exact find?_mapDelete st.recordIDs fqdn

/-- A successful checkdomain Present leaves no fqdn-keyed entry in the
domain-ID mapping: the only insertion is keyed by the domain. -/
lemma cd_present_no_fqdn_entry (env : CdEnv) (st : CdState)
    (domain fqdn value : String) (did : Nat)
    (hdl : env.domainLookup domain = Except.ok did)
    (hns : env.nsErr = none) (hcr : env.createErr = none)
    (hne : fqdn ≠ domain)
    (hpre0 : st.domainIDMapping.find? (fun p => p.1 == fqdn) = none) :
    (cdPresent env st domain fqdn value).1 = none
    ∧ ((cdPresent env st domain fqdn value).2.domainIDMapping.find?
        (fun p => p.1 == fqdn)) = none := by
  have hdf : (domain == fqdn) = false :=
    beq_eq_false_iff_ne.mpr (fun hh => hne hh.symm)
  cases hfd : st.domainIDMapping.find? (fun p => p.1 == domain) with
  | none =>
    refine ⟨?_, ?_⟩
    · simp [cdPresent, cdGetDomainIDByName, cdCheckNameservers, cdCreateRecord,
        hfd, hdl, hns, hcr]
    · simp only [cdPresent, cdGetDomainIDByName, cdCheckNameservers,
        cdCreateRecord, hfd, hdl, hns, hcr]
      rw [List.find?_cons]
      simp only [hdf]
      exact hpre0
  | some p =>
    refine ⟨?_, ?_⟩
    · simp [cdPresent, cdGetDomainIDByName, cdCheckNameservers, cdCreateRecord,
        hfd, hdl, hns, hcr]
    · simp only [cdPresent, cdGetDomainIDByName, cdCheckNameservers,
        cdCreateRecord, hfd, hdl, hns, hcr]
      exact hpre0

/-- A successful checkdomain CleanUp leaves the domain-keyed mapping entry in
place: the deletion keyed by the fqdn does not remove it. -/
lemma cd_cleanup_keeps_domain_entry (env : CdEnv) (st : CdState)
    (domain fqdn value : String) (did : Nat)
    (hdl : env.domainLookup domain = Except.ok did)
    (hns : env.nsErr = none) (hdel : env.deleteErr = none)
    (hne : fqdn ≠ domain) :
    (cdCleanUp env st domain fqdn value).1 = none
    ∧ ((cdCleanUp env st domain fqdn value).2.domainIDMapping.find?
        (fun p => p.1 == domain)) ≠ none := by
  have hq : ∀ x : String × Nat, (x.1 == domain) = true → (!(x.1 == fqdn)) = true := by
    intro x hx
    have hx1 : x.1 = domain := beq_iff_eq.mp hx
    have : (x.1 == fqdn) = false :=
      beq_eq_false_iff_ne.mpr (by rw [hx1]; exact fun hh => hne hh.symm)
    simp [this]
  cases hfd : st.domainIDMapping.find? (fun p => p.1 == domain) with
  | none =>
    refine ⟨?_, ?_⟩
    · simp [cdCleanUp, cdGetDomainIDByName, cdCheckNameservers,
        cdDeleteTXTRecord, hfd, hdl, hns, hdel]
    · simp only [cdCleanUp, cdGetDomainIDByName, cdCheckNameservers,
        cdDeleteTXTRecord, hfd, hdl, hns, hdel, mapDeleteN]
      rw [find?_filter_imp _ _ _ hq]
      rw [List.find?_cons]
      simp
  | some p =>
    refine ⟨?_, ?_⟩
    · simp [cdCleanUp, cdGetDomainIDByName, cdCheckNameservers,
        cdDeleteTXTRecord, hfd, hdl, hns, hdel]
    · simp only [cdCleanUp, cdGetDomainIDByName, cdCheckNameservers,
        cdDeleteTXTRecord, hfd, hdl, hns, hdel, mapDeleteN]
      rw [find?_filter_imp _ _ _ hq, hfd]
      simp

/-- C7 (amended): for the hostingde adapter the claim holds — after a
successful Present the record-ID cache holds a (non-empty) entry keyed by
the fqdn, and after a CleanUp that entry is absent.  For the checkdomain
adapter it does not: the adapter's only cache is its domain-ID mapping,
keyed by the domain, so a successful Present leaves NO entry keyed by the
fqdn, and CleanUp's removal of the key fqdn is a no-op that leaves the
domain-keyed entry in place. -/
theorem c7_cache_consistency (envH : HdeEnv) (envC : CdEnv)
    (stH stH2 : HdeState) (stC stC2 : CdState)
    (domain fqdn value : String) (did : Nat)
    (hgz : envH.getZoneErr = none) (huz : envH.updateZoneErr = none)
    (hp : (hdePresent envH stH domain fqdn value).1 = none)
    (hdl : envC.domainLookup domain = Except.ok did)
    (hns : envC.nsErr = none) (hcr : envC.createErr = none)
    (hdel : envC.deleteErr = none) (hne : fqdn ≠ domain)
    (hpre0 : stC.domainIDMapping.find? (fun p => p.1 == fqdn) = none) :
    mapLookup (hdePresent envH stH domain fqdn value).2.recordIDs fqdn ≠ ""
    ∧ ((hdeCleanUp envH stH2 domain fqdn value).2.recordIDs.find?
        (fun p => p.1 == fqdn)) = none
    ∧ ((cdPresent envC stC domain fqdn value).1 = none
      ∧ ((cdPresent envC stC domain fqdn value).2.domainIDMapping.find?
          (fun p => p.1 == fqdn)) = none)
    ∧ ((cdCleanUp envC stC2 domain fqdn value).1 = none
      ∧ ((cdCleanUp envC stC2 domain fqdn value).2.domainIDMapping.find?
          (fun p => p.1 == domain)) ≠ none) :=
  ⟨hde_present_success_entry envH stH domain fqdn value hgz huz hp,
   hde_cleanup_removes_entry envH stH2 domain fqdn value hgz huz,
   cd_present_no_fqdn_entry envC stC domain fqdn value did hdl hns hcr hne hpre0,
   cd_cleanup_keeps_domain_entry envC stC2 domain fqdn value did hdl hns hdel hne⟩

/-- Witness for the amended C7 at concrete inputs. -/
theorem c7_witness :
    mapLookup (hdePresent hdeNominalEnv hdeEmptyState "example.com"
      "_acme-challenge.example.com." "value").2.recordIDs
      "_acme-challenge.example.com." ≠ ""
    ∧ ((hdeCleanUp hdeNominalEnv hdeStaleState "example.com"
        "_acme-challenge.example.com." "value").2.recordIDs.find?
        (fun p => p.1 == "_acme-challenge.example.com.")) = none
    ∧ ((cdPresent cdNominalEnv cdEmptyState "example.com"
        "_acme-challenge.example.com." "value").1 = none
      ∧ ((cdPresent cdNominalEnv cdEmptyState "example.com"
          "_acme-challenge.example.com." "value").2.domainIDMapping.find?
          (fun p => p.1 == "_acme-challenge.example.com.")) = none)
    ∧ ((cdCleanUp cdNominalEnv cdEmptyState "example.com"
        "_acme-challenge.example.com." "value").1 = none
      ∧ ((cdCleanUp cdNominalEnv cdEmptyState "example.com"
          "_acme-challenge.example.com." "value").2.domainIDMapping.find?
          (fun p => p.1 == "example.com")) ≠ none) :=
  c7_cache_consistency hdeNominalEnv cdNominalEnv hdeEmptyState hdeStaleState
    cdEmptyState cdEmptyState "example.com" "_acme-challenge.example.com."
    "value" 7 rfl rfl (by decide) rfl rfl rfl rfl (by decide) rfl

/-! ## Claim C8 (cleanup record selection) -/

/-- C8 counterexample: a concrete inwx CleanUp run for value "v1" against a
zone holding two TXT records at the challenge name with values "v1" and
"v2".  The run succeeds and deletes BOTH records — the record whose value
"v2" differs from the requested value is deleted too, because inwx CleanUp
lists records by (domain, name, type) only and deletes every listed record —
contradicting the claim that records whose value differs are not deleted. -/
theorem c8_counterexample :
    (inwxCleanUp inwxNominalEnv inwxTwoRecordState "example.com"
      "_acme-challenge.example.com." "v1").1 = none
    ∧ (inwxCleanUp inwxNominalEnv inwxTwoRecordState "example.com"
        "_acme-challenge.example.com." "v1").2.records = [] := by
  refine ⟨?_, ?_⟩ <;> decide

/-- Specification of `firstIdx`: a returned index is in range and points at
an element satisfying the predicate. -/
lemma firstIdx_spec {α : Type} (p : α → Bool) (d : α) :
    ∀ (l : List α) (i : Nat), firstIdx p l = some i →
      i < l.length ∧ p (l.getD i d) = true := by
  intro l
  induction l with
  | nil => intro i h; exact absurd h (by simp [firstIdx])
  | cons a rest ih =>
    intro i h
    by_cases ha : p a = true
    · simp only [firstIdx, ha, if_true, Option.some.injEq] at h
      subst h
      exact ⟨by simp, by simpa using ha⟩
    · have ha' : p a = false := by
        cases hpa : p a
        · rfl
        · exact absurd hpa ha
      simp only [firstIdx, ha', Bool.false_eq_true, if_false] at h
      cases hr : firstIdx p rest with
      | none => rw [hr] at h; simp at h
      | some j =>
        rw [hr] at h
        simp only [Option.map_some', Option.some.injEq] at h
        obtain ⟨hlt, hp⟩ := ih j hr
        subst h
        refine ⟨by simpa using Nat.succ_lt_succ hlt, ?_⟩
        simpa using hp

/-- Filtering out the id of the i-th record of a zone with pairwise distinct
ids removes exactly that record. -/
lemma filter_ne_eraseIdx (l : List NetcupDNSRecord) :
    ∀ i : Nat, i < l.length → ((l.map (fun r => r.id)).Nodup) →
      l.filter (fun x => !(x.id == (l.getD i netcupDefaultRecord).id))
        = l.eraseIdx i := by
  induction l with
  | nil => intro i h; simp at h
  | cons a rest ih =>
    intro i hi hnd
    rw [List.map_cons] at hnd
    have hnd' := List.nodup_cons.mp hnd
    cases i with
    | zero =>
      simp only [List.getD_cons_zero, List.filter_cons, beq_self_eq_true,
        Bool.not_true, Bool.false_eq_true, if_false, List.eraseIdx_cons_zero]
      exact List.filter_eq_self.mpr (fun r hr => by
        have hne : r.id ≠ a.id := by
          intro hh
          exact hnd'.1 (hh ▸ List.mem_map_of_mem (fun r => r.id) hr)
        simp [hne])
    | succ j =>
      have hj : j < rest.length := by simpa using hi
      have htmem : (rest.getD j netcupDefaultRecord) ∈ rest := by
        rw [List.getD_eq_getD_get?, List.get?_eq_get hj]
        exact List.get_mem rest j hj
      have hane : a.id ≠ (rest.getD j netcupDefaultRecord).id := by
        intro hh
        exact hnd'.1 (hh ▸ List.mem_map_of_mem (fun r => r.id) htmem)
      simp only [List.getD_cons_succ, List.filter_cons,
        beq_eq_false_iff_ne.mpr hane, Bool.not_false, if_true,
        List.eraseIdx_cons_succ, List.cons.injEq]
      exact ⟨trivial, ih j hj hnd'.2⟩

/-- netcup CleanUp deletes exactly the first (hostname, type, destination)
match: the located record matches the requested (name, value), and the
resulting zone is the original with exactly that one record removed. -/
lemma netcup_cleanup_selection (env : NetcupEnv) (st : NetcupState)
    (domainName fqdn value z : String) (i : Nat)
    (hz : env.findZone fqdn = Except.ok z)
    (hlogin : env.loginErr = none) (hget : env.getErr = none)
    (hupd : env.updateErr = none)
    (hnd : (st.records.map (fun r => r.id)).Nodup)
    (hidx : netcupGetDNSRecordIdx st.records
      ({ id := 0, hostname := replaceFirst fqdn ("." ++ z) "",
         recordType := "TXT", destination := value, deleteRecord := false,
         ttl := 0 } : NetcupDNSRecord) = Except.ok i) :
    (netcupCleanUp env st domainName fqdn value).1 = none
    ∧ (netcupCleanUp env st domainName fqdn value).2.records
        = st.records.eraseIdx i
    ∧ ((st.records.getD i netcupDefaultRecord).hostname
          = replaceFirst fqdn ("." ++ z) ""
        ∧ (st.records.getD i netcupDefaultRecord).recordType = "TXT"
        ∧ (st.records.getD i netcupDefaultRecord).destination = value) := by
  have hfi : firstIdx (fun x =>
      x.hostname == replaceFirst fqdn ("." ++ z) "" && x.recordType == "TXT"
        && x.destination == value) st.records = some i := by
    revert hidx
    unfold netcupGetDNSRecordIdx
    cases hfi0 : firstIdx (fun x =>
        x.hostname == replaceFirst fqdn ("." ++ z) "" && x.recordType == "TXT"
          && x.destination == value) st.records with
    | none => intro hidx; simp at hidx
    | some j => intro hidx; simp at hidx; rw [hidx]
  obtain ⟨hlt, hp⟩ := firstIdx_spec _ netcupDefaultRecord st.records i hfi
  have hp3 : (st.records.getD i netcupDefaultRecord).hostname
        = replaceFirst fqdn ("." ++ z) ""
      ∧ (st.records.getD i netcupDefaultRecord).recordType = "TXT"
      ∧ (st.records.getD i netcupDefaultRecord).destination = value := by
    simp only [Bool.and_eq_true, beq_iff_eq] at hp
    exact ⟨hp.1.1, hp.1.2, hp.2⟩
  refine ⟨?_, ?_, hp3⟩
  · simp only [netcupCleanUp, netcupLogin, netcupLogout, netcupGetDNSRecords,
      netcupUpdateDNSRecord, netcupGetDNSRecordIdx, hz, hlogin, hget, hupd]
    rw [hfi]
  · simp only [netcupCleanUp, netcupLogin, netcupLogout, netcupGetDNSRecords,
      netcupUpdateDNSRecord, netcupGetDNSRecordIdx, hz, hlogin, hget, hupd]
    rw [hfi]
    simp only [List.foldl_cons, List.foldl_nil, netcupApplyOne, if_true]
    exact filter_ne_eraseIdx st.records i hlt hnd

/-- hostingde CleanUp deletes a record exactly when its (name, type,
exact-quoted content) matches the requested (fqdn, value); no cached id is
consulted for the selection. -/
lemma hde_cleanup_selection (env : HdeEnv) (st : HdeState)
    (domain fqdn value : String)
    (hgz : env.getZoneErr = none) (huz : env.updateZoneErr = none) :
    ∀ r : HdeDNSRecord,
      r ∈ (hdeCleanUp env st domain fqdn value).2.records
        ↔ (r ∈ st.records
            ∧ ¬(r.name = unFqdn fqdn ∧ r.typ = "TXT" ∧ r.content = quoteS value)) := by
  intro r
  simp only [hdeCleanUp, hdeGetZone, hdeUpdateZone, hgz, huz, List.foldl_nil]
  rw [List.mem_filter]
  simp only [hdeMatchesDelete, List.any_cons, List.any_nil, Bool.or_false]
  constructor
  · rintro ⟨hmem, hb⟩
    refine ⟨hmem, ?_⟩
    rintro ⟨h1, h2, h3⟩
    rw [h1, h2, h3] at hb
    simp at hb
  · rintro ⟨hmem, hnt⟩
    refine ⟨hmem, ?_⟩
    by_cases h1 : r.name = unFqdn fqdn
    · by_cases h2 : r.typ = "TXT"
      · by_cases h3 : r.content = quoteS value
        · exact absurd ⟨h1, h2, h3⟩ hnt
        · simp [beq_eq_false_iff_ne.mpr (fun hh => h3 hh.symm)]
      · simp [beq_eq_false_iff_ne.mpr (fun hh => h2 hh.symm)]
    · simp [beq_eq_false_iff_ne.mpr (fun hh => h1 hh.symm)]

/-- C8 (amended): during CleanUp, the hostingde adapter deletes a zone
record if and only if its (name, type, exact-quoted content) equals the
requested (fqdn, TXT, value); the netcup adapter selects only the FIRST
record matching (hostname, type, destination) — that record does match the
requested (name, value), and exactly it is removed; neither selection
consults a cached id.  The inwx adapter is excluded: its CleanUp deletes
every TXT record at the name regardless of value (see the
counterexample). -/
theorem c8_cleanup_matches_name_value (envN : NetcupEnv) (envH : HdeEnv)
    (stN : NetcupState) (stH : HdeState)
    (domainName fqdn value z : String) (i : Nat)
    (hz : envN.findZone fqdn = Except.ok z)
    (hlogin : envN.loginErr = none) (hget : envN.getErr = none)
    (hupd : envN.updateErr = none)
    (hnd : (stN.records.map (fun r => r.id)).Nodup)
    (hidx : netcupGetDNSRecordIdx stN.records
      ({ id := 0, hostname := replaceFirst fqdn ("." ++ z) "",
         recordType := "TXT", destination := value, deleteRecord := false,
         ttl := 0 } : NetcupDNSRecord) = Except.ok i)
    (hgz : envH.getZoneErr = none) (huz : envH.updateZoneErr = none) :
    ((netcupCleanUp envN stN domainName fqdn value).1 = none
      ∧ (netcupCleanUp envN stN domainName fqdn value).2.records
          = stN.records.eraseIdx i
      ∧ ((stN.records.getD i netcupDefaultRecord).hostname
            = replaceFirst fqdn ("." ++ z) ""
          ∧ (stN.records.getD i netcupDefaultRecord).recordType = "TXT"
          ∧ (stN.records.getD i netcupDefaultRecord).destination = value))
    ∧ (∀ r : HdeDNSRecord,
        r ∈ (hdeCleanUp envH stH domainName fqdn value).2.records
          ↔ (r ∈ stH.records
              ∧ ¬(r.name = unFqdn fqdn ∧ r.typ = "TXT"
                  ∧ r.content = quoteS value))) :=
  ⟨netcup_cleanup_selection envN stN domainName fqdn value z i hz hlogin hget
      hupd hnd hidx,
   hde_cleanup_selection envH stH domainName fqdn value hgz huz⟩

/-- hostingde state for the C8 witness: an unrelated record plus the stored
(exact-quoted) challenge record. -/
def hdeTwoRecordState : HdeState :=
  { records :=
      [ { id := "r1", name := "www.example.com", typ := "A",
          content := "192.0.2.1", ttl := 300 },
        { id := "r2", name := "_acme-challenge.example.com", typ := "TXT",
          content := "\"value\"", ttl := 300 } ],
    nextId := 3, recordIDs := [], events := [] }

/-- Witness for the amended C8 at concrete inputs. -/
theorem c8_witness :
    ((netcupCleanUp netcupNominalEnv netcupTwoRecordState "example.com"
        "_acme-challenge.example.com." "value").1 = none
      ∧ (netcupCleanUp netcupNominalEnv netcupTwoRecordState "example.com"
          "_acme-challenge.example.com." "value").2.records
          = netcupTwoRecordState.records.eraseIdx 1
      ∧ ((netcupTwoRecordState.records.getD 1 netcupDefaultRecord).hostname
            = replaceFirst "_acme-challenge.example.com." ("." ++ "example.com.") ""
          ∧ (netcupTwoRecordState.records.getD 1 netcupDefaultRecord).recordType
              = "TXT"
          ∧ (netcupTwoRecordState.records.getD 1 netcupDefaultRecord).destination
              = "value"))
    ∧ (∀ r : HdeDNSRecord,
        r ∈ (hdeCleanUp hdeNominalEnv hdeTwoRecordState "example.com"
          "_acme-challenge.example.com." "value").2.records
          ↔ (r ∈ hdeTwoRecordState.records
              ∧ ¬(r.name = unFqdn "_acme-challenge.example.com." ∧ r.typ = "TXT"
                  ∧ r.content = quoteS "value"))) :=
  c8_cleanup_matches_name_value netcupNominalEnv hdeNominalEnv
    netcupTwoRecordState hdeTwoRecordState "example.com"
    "_acme-challenge.example.com." "value" "example.com." 1
    rfl rfl rfl rfl (by decide) rfl rfl rfl

/-! ## Claim C9 (inwx cleanup error aggregation) -/

/-- C9 counterexample: a concrete inwx CleanUp run in which both matched
records' deletions fail ("e1" then "e2").  Deletion IS attempted for both
records (the trace shows both delete calls), but the single returned error
wraps only the LAST failure "e2" — it is not an aggregate of both failures,
and it differs from the wrapped first failure — contradicting the claim
that the returned error aggregates all per-record deletion failures. -/
theorem c9_counterexample :
    (inwxCleanUp inwxDeleteFailEnv inwxTwoRecordState "example.com"
      "_acme-challenge.example.com." "v1").2.events
      = [Ev.login, Ev.nsInfo, Ev.deleteRec 1, Ev.deleteRec 2, Ev.logout]
    ∧ (inwxCleanUp inwxDeleteFailEnv inwxTwoRecordState "example.com"
        "_acme-challenge.example.com." "v1").1 = some (Err.other "inwx: e2")
    ∧ Err.other "inwx: e2" ≠ wrapErr "inwx: " (Err.other "e1") := by
  refine ⟨?_, ?_, ?_⟩ <;> decide

/-- C9 (amended): for the inwx adapter's CleanUp, when login and the record
listing succeed, deletion is attempted for every matched record in order (no
abort after the first failure), and the single error it returns is the wrap
of the LAST per-record deletion failure — not an aggregate of all
failures (nil when no deletion fails). -/
theorem c9_cleanup_last_error_only (env : InwxEnv) (st : InwxState)
    (domain fqdn value z : String)
    (hz : env.findZone fqdn = Except.ok z)
    (hlogin : env.loginErr = none) (hinfo : env.infoErr = none) :
    (inwxCleanUp env st domain fqdn value).2.events
      = st.events ++ [Ev.login, Ev.nsInfo]
        ++ ((st.records.filter (fun x =>
            x.domain == unFqdn z && x.name == unFqdn fqdn && x.typ == "TXT")).map
          (fun r => Ev.deleteRec r.id))
        ++ [Ev.logout]
    ∧ (inwxCleanUp env st domain fqdn value).1
      = ((st.records.filter (fun x =>
          x.domain == unFqdn z && x.name == unFqdn fqdn
            && x.typ == "TXT")).filterMap
          (fun r => env.deleteErr r.id)).getLast?.map (wrapErr "inwx: ") := by
  refine ⟨?_, ?_⟩
  · simp only [inwxCleanUp, inwxLogin, inwxNsInfo, inwxLogout, inwxDelLoop,
      hz, hlogin, hinfo]
    rw [inwxDelLoop_trace]
    simp
  · simp only [inwxCleanUp, inwxLogin, inwxNsInfo, inwxLogout, inwxDelLoop,
      hz, hlogin, hinfo]
    rw [inwxDelLoop_lastErr]
    cases hrl : ((st.records.filter (fun x =>
        x.domain == unFqdn z && x.name == unFqdn fqdn
          && x.typ == "TXT")).filterMap (fun r => env.deleteErr r.id)).getLast? with
    | none => simp [hrl]
    | some e => simp [hrl]

/-- Witness for the amended C9 at a concrete input: both deletions fail,
both are attempted, and the returned error wraps the last failure. -/
theorem c9_witness :
    (inwxCleanUp inwxDeleteFailEnv inwxTwoRecordState "example.com"
      "_acme-challenge.example.com." "v1").2.events
      = inwxTwoRecordState.events ++ [Ev.login, Ev.nsInfo]
        ++ ((inwxTwoRecordState.records.filter (fun x =>
            x.domain == unFqdn "example.com."
              && x.name == unFqdn "_acme-challenge.example.com."
              && x.typ == "TXT")).map (fun r => Ev.deleteRec r.id))
        ++ [Ev.logout]
    ∧ (inwxCleanUp inwxDeleteFailEnv inwxTwoRecordState "example.com"
        "_acme-challenge.example.com." "v1").1
      = ((inwxTwoRecordState.records.filter (fun x =>
          x.domain == unFqdn "example.com."
            && x.name == unFqdn "_acme-challenge.example.com."
            && x.typ == "TXT")).filterMap
          (fun r => inwxDeleteFailEnv.deleteErr r.id)).getLast?.map
          (wrapErr "inwx: ") :=
  c9_cleanup_last_error_only inwxDeleteFailEnv inwxTwoRecordState "example.com"
    "_acme-challenge.example.com." "v1" "example.com." rfl rfl rfl

end DnsProviderApi
